import Mathlib

/-!
# Verification of the wallet transaction engine

A shallow embedding of the wallet payments service: the DynamoDB-style
store (a single key-addressed table supporting multi-item conditional
transactional writes), the item factory that builds the three primitive
conditional operations, the error mapper that interprets per-item
cancellation reasons, the wallet engine operations (create, deposit,
transfer), and the HTTP-schema validation layer.

Conventions of the embedding:
* The store is an association list from primary-key strings to items;
  an item is an association list from attribute names to attribute
  values (strings, integers, or one-level maps, which is all the engine
  ever stores).
* Factory methods return descriptors mirroring the dictionaries built
  by `DynamoDBItemFactory`: the table name, the key, the literal
  `UpdateExpression` / `ConditionExpression` strings and the
  `ExpressionAttributeNames` / `ExpressionAttributeValues` bindings.
  A small interpreter gives those literal expression strings their
  DynamoDB semantics.
* `TransactWriteItems` is atomic: either every operation's condition
  holds (and every update is executable) and all effects apply, or the
  state is unchanged and a positional list of cancellation reasons is
  produced, `ConditionalCheckFailed` for each operation whose condition
  failed and `None` for the others, as DynamoDB does.
* Fallible Python code (raised exceptions) becomes `Except`.
* Wall-clock values (the record TTL) and generated UUIDs are threaded
  as explicit parameters.
-/

namespace WalletSpec

/-- A scalar DynamoDB attribute value: string or number.  The engine
only ever stores strings and integers inside nested maps. -/
inductive ScalarValue where
  | S (s : String)
  | N (n : Int)
  deriving DecidableEq, Repr

/-- A DynamoDB attribute value as used by the engine: string, number,
or a one-level map of scalars (the `data` payload of a transaction
record). -/
inductive AttrValue where
  | S (s : String)
  | N (n : Int)
  | M (m : List (String × ScalarValue))
  deriving DecidableEq, Repr

/-- A stored item: attribute name ↦ attribute value. -/
abbrev Item : Type := List (String × AttrValue)

/-- Read an attribute of an item. -/
def Item.get (it : Item) (attr : String) : Option AttrValue :=
  match it with
  | [] => none
  | (k, v) :: rest => if k = attr then some v else Item.get rest attr

/-- Overwrite (or append) one attribute of an item. -/
def Item.set (it : Item) (attr : String) (v : AttrValue) : Item :=
  match it with
  | [] => [(attr, v)]
  | (k, w) :: rest =>
      if k = attr then (attr, v) :: rest else (k, w) :: Item.set rest attr v

/-- The single logical table: primary-key string ↦ item. -/
abbrev Store : Type := List (String × Item)

/-- The empty table. -/
def Store.empty : Store := []

/-- Look up the item with the given primary key. -/
def Store.lookup (s : Store) (pk : String) : Option Item :=
  match s with
  | [] => none
  | (k, it) :: rest => if k = pk then some it else Store.lookup rest pk

/-- Overwrite (or insert) the item at the given primary key. -/
def Store.set (s : Store) (pk : String) (it : Item) : Store :=
  match s with
  | [] => [(pk, it)]
  | (k, w) :: rest =>
      if k = pk then (pk, it) :: rest else (k, w) :: Store.set rest pk it

/-! ## Item factory (`DynamoDBItemFactory`) -/

/-- The descriptor built by `put_idempotency_item`: a `Put` request with
condition `attribute_not_exists(#key)` where `#key` binds the
primary-key attribute name. -/
structure PutRequest where
  tableName : String
  item : Item
  conditionExpression : String
  exprAttrNameKey : String
  deriving DecidableEq

/-- The descriptor built by `update_atomic_increment` /
`update_atomic_decrement`: an `Update` request addressed by primary key
with a literal update / condition expression, `:n` bound to the amount
and `#key` bound to the updated attribute name. -/
structure UpdateRequest where
  tableName : String
  keyPk : String
  updateExpression : String
  conditionExpression : String
  exprAttrValueN : Int
  exprAttrNameKey : String
  deriving DecidableEq

/-- One entry of a `TransactWriteItems` batch. -/
inductive TransactItem where
  | Put (r : PutRequest)
  | Update (r : UpdateRequest)
  deriving DecidableEq

/-- `DynamoDBItemFactory.put_idempotency_item`: put the item (the data
plus the primary-key attribute) conditionally on
`attribute_not_exists(#key)` with `#key ↦ pk_field`. -/
def put_idempotency_item (tableName pkField pk : String) (data : Item) :
    TransactItem :=
  .Put
    { tableName := tableName
      item := data ++ [(pkField, .S pk)]
      conditionExpression := "attribute_not_exists(#key)"
      exprAttrNameKey := pkField }

/-- `DynamoDBItemFactory.update_atomic_increment`: rejects `amount ≤ 0`
with a `ValueError`; otherwise an `Update` with effect
`SET #key = #key + :n` and condition `attribute_exists(#key)`, where
`#key` binds `update_key` (NOT the primary-key attribute). -/
def update_atomic_increment (tableName _pkField pk update_key : String)
    (amount : Int) : Except String TransactItem :=
  if amount ≤ 0 then
    .error ("Unable to decrement. Amount for the " ++ pk ++
      " can not be lower than 0")
  else
    .ok (.Update
      { tableName := tableName
        keyPk := pk
        updateExpression := "SET #key = #key + :n"
        conditionExpression := "attribute_exists(#key)"
        exprAttrValueN := amount
        exprAttrNameKey := update_key })

/-- `DynamoDBItemFactory.update_atomic_decrement`: rejects `amount ≤ 0`
with a `ValueError`; otherwise an `Update` with effect
`SET #key = #key - :n` and condition `#key >= :n`, where `#key` binds
`update_key`. -/
def update_atomic_decrement (tableName _pkField pk update_key : String)
    (amount : Int) : Except String TransactItem :=
  if amount ≤ 0 then
    .error ("Unable to decrement. Amount for the " ++ pk ++
      " can not be lower than 0")
  else
    .ok (.Update
      { tableName := tableName
        keyPk := pk
        updateExpression := "SET #key = #key - :n"
        conditionExpression := "#key >= :n"
        exprAttrValueN := amount
        exprAttrNameKey := update_key })

/-! ## Backend semantics of a transactional write -/

/-- The primary key an operation addresses: an `Update` carries it in
`Key`; a `Put` is addressed by the primary-key attribute of its item. -/
def opTargetPk (pkField : String) (op : TransactItem) : Option String :=
  match op with
  | .Put r =>
      match Item.get r.item pkField with
      | some (.S pk) => some pk
      | _ => none
  | .Update r => some r.keyPk

/-- DynamoDB semantics of the condition-expression strings the factory
produces, with `#key ↦ attrName` and `:n ↦ nVal`, evaluated against the
(possibly absent) existing item. -/
def evalCondExpr (expr attrName : String) (nVal : Int)
    (existing : Option Item) : Bool :=
  if expr = "attribute_not_exists(#key)" then
    match existing with
    | none => true
    | some it => (Item.get it attrName).isNone
  else if expr = "attribute_exists(#key)" then
    match existing with
    | none => false
    | some it => (Item.get it attrName).isSome
  else if expr = "#key >= :n" then
    match existing with
    | none => false
    | some it =>
        match Item.get it attrName with
        | some (.N b) => decide (nVal ≤ b)
        | _ => false
  else false

/-- Per-operation evaluation: `none` when the operation can commit,
otherwise the DynamoDB cancellation-reason code.  A failed condition
yields `ConditionalCheckFailed`; an update whose `SET` operand is not a
number yields `ValidationError` (DynamoDB rejects `a + :n` on a
non-numeric or absent operand). -/
def opReasonCode (pkField : String) (s : Store) (op : TransactItem) :
    Option String :=
  match opTargetPk pkField op with
  | none => some "ValidationError"
  | some pk =>
    let existing := s.lookup pk
    match op with
    | .Put r =>
        if evalCondExpr r.conditionExpression r.exprAttrNameKey 0 existing
        then none else some "ConditionalCheckFailed"
    | .Update r =>
        if evalCondExpr r.conditionExpression r.exprAttrNameKey
            r.exprAttrValueN existing then
          match existing with
          | some it =>
              match Item.get it r.exprAttrNameKey with
              | some (.N _) => none
              | _ => some "ValidationError"
          | none => some "ValidationError"
        else some "ConditionalCheckFailed"

/-- Apply one operation's effect (only reached when `opReasonCode`
returned `none` for every operation of the batch). -/
def applyOp (pkField : String) (s : Store) (op : TransactItem) : Store :=
  match op with
  | .Put r =>
      match opTargetPk pkField (.Put r) with
      | some pk => s.set pk r.item
      | none => s
  | .Update r =>
      match s.lookup r.keyPk with
      | none => s
      | some it =>
          match Item.get it r.exprAttrNameKey with
          | some (.N b) =>
              if r.updateExpression = "SET #key = #key + :n" then
                s.set r.keyPk (Item.set it r.exprAttrNameKey
                  (.N (b + r.exprAttrValueN)))
              else if r.updateExpression = "SET #key = #key - :n" then
                s.set r.keyPk (Item.set it r.exprAttrNameKey
                  (.N (b - r.exprAttrValueN)))
              else s
          | _ => s

/-- One positional cancellation reason, as reported in
`CancellationReasons` of a `TransactionCanceledException`. -/
structure CancellationReason where
  code : String
  message : String
  deriving DecidableEq

/-- Failure of a transactional write: the local batch-size guard of
`DynamoDB.transaction_write_items` (a `ValueError`), or a backend
cancellation carrying one reason per submitted operation. -/
inductive TxError where
  | tooManyItems (msg : String)
  | cancelled (reasons : List CancellationReason)
  deriving DecidableEq

/-- `DynamoDB.transaction_write_items` + the DynamoDB
`TransactWriteItems` contract: reject batches above 25 locally;
otherwise commit all effects iff every operation passes, else cancel
with a positional reason list (`None` for passing operations). -/
def transact_write_items (pkField : String) (s : Store)
    (items : List TransactItem) : Except TxError Store :=
  if 25 < items.length then
    .error (.tooManyItems "There are more than 25 requests in the batch.")
  else if items.all (fun op => (opReasonCode pkField s op).isNone) then
    .ok (items.foldl (applyOp pkField) s)
  else
    .error (.cancelled (items.map (fun op =>
      match opReasonCode pkField s op with
      | none => { code := "None", message := "" }
      | some c => { code := c, message := "The conditional request failed" })))

/-! ## Error mapper (`storage/exceptions.py`) -/

/-- A per-slot sub-error of `TransactionMultipleError.errors`. -/
inductive StorageSubError where
  | conditionalCheckFailed (msg : String)
  | unknown (msg : String)
  deriving DecidableEq

/-- The loop in `TransactionMultipleError.__init__` building
`self.errors` from the `CancellationReasons` of the inner botocore
error: `ConditionalCheckFailed` and `TransactionConflict` both become a
`ConditionalCheckFailedError`, `None` is kept as `None` and anything
else becomes an `UnknownStorageError`. -/
def transactionMultipleErrors (reasons : List CancellationReason) :
    List (Option StorageSubError) :=
  reasons.map (fun error =>
    if error.code = "ConditionalCheckFailed" then
      some (.conditionalCheckFailed error.message)
    else if error.code = "TransactionConflict" then
      some (.conditionalCheckFailed error.message)
    else if error.code = "None" then
      none
    else
      some (.unknown error.message))

/-! ## Wallet engine (`storage/models.py`) -/

/-- The `StorageKeyPostfix` constants. -/
def TRANSACTION_KEY_POSTFIX : String := "#transaction"

/-- `StorageKeyPostfix.WALLET`. -/
def WALLET_KEY_POSTFIX : String := "#wallet"

/-- `StorageKeyPostfix.USER`. -/
def USER_KEY_POSTFIX : String := "#user"

/-- `Wallet.USER_WALLET_KEY`. -/
def USER_WALLET_KEY : String := "wallet"

/-- `Wallet.BALANCE_KEY`. -/
def BALANCE_KEY : String := "balance"

/-- `Wallet.DEFAULT_BALANCE`. -/
def DEFAULT_BALANCE : Int := 0

/-- `DynamoDB.PK_ATTRIBUTE_NAME`. -/
def PK_ATTRIBUTE_NAME : String := "pk"

/-- `settings.WALLET_TABLE_NAME` default. -/
def WALLET_TABLE_NAME : String := "wallet"

/-- `Transaction.get_unique_id`: the transaction-record key.  A truthy
(non-empty) nonce yields `<wallet>_<nonce>#transaction`; `None` or the
empty string yield `<wallet>#transaction` (Python `if nonce:` treats
both as false). -/
def get_unique_id (wallet : String) (nonce : Option String) : String :=
  match nonce with
  | some n =>
      if n = "" then wallet ++ TRANSACTION_KEY_POSTFIX
      else wallet ++ "_" ++ n ++ TRANSACTION_KEY_POSTFIX
  | none => wallet ++ TRANSACTION_KEY_POSTFIX

/-- `Wallet.unique_id`: the wallet item key. -/
def wallet_unique_id (wallet_id : String) : String :=
  wallet_id ++ WALLET_KEY_POSTFIX

/-- `Transaction.as_dict`: `{"ttl": …, "type": …, "data": …}`. -/
def transaction_as_dict (ttl : Int) (type : String)
    (data : List (String × ScalarValue)) : Item :=
  [("ttl", .N ttl), ("type", .S type), ("data", .M data)]

/-- The engine-level errors (`storage/exceptions.py` wallet errors plus
the Python `ValueError` the factory and the self-transfer guard
raise). -/
inductive WalletError where
  | transactionAlreadyRegistered (msg : String)
  | walletAlreadyExists (msg : String)
  | walletDoesNotExists (msg : String)
  | insufficientFunds (msg : String)
  | baseWalletError (msg : String)
  | valueError (msg : String)
  deriving DecidableEq

/-- The `except TransactionMultipleError` block of `Wallet.create_wallet`:
slot 0 failing means the create-transaction record already existed;
everything else is reported as the user already owning a wallet. -/
def create_error_interpretation (user_pk : String)
    (errors : List (Option StorageSubError)) : WalletError :=
  match errors.getD 0 none with
  | some (.conditionalCheckFailed m) => .transactionAlreadyRegistered m
  | some (.unknown m) => .transactionAlreadyRegistered m
  | none =>
      .walletAlreadyExists ("Wallet already exists for the user " ++ user_pk)

/-- The `except TransactionMultipleError` block of `Wallet.atomic_deposit`. -/
def deposit_error_interpretation (wallet_id nonce : String)
    (errors : List (Option StorageSubError)) : WalletError :=
  if (errors.getD 0 none).isSome then
    .transactionAlreadyRegistered
      ("Transaction with nonce " ++ nonce ++ " already registered.")
  else
    .walletDoesNotExists
      ("Wallet with self.wallet_id=" ++ wallet_id ++ " does not exists")

/-- The `except TransactionMultipleError` block of `Wallet.atomic_transfer`:
slot 0 → already registered, slot 1 → insufficient funds,
slot 2 → target wallet does not exist, otherwise the base fallback. -/
def transfer_error_interpretation (nonce : String)
    (errors : List (Option StorageSubError)) : WalletError :=
  if (errors.getD 0 none).isSome then
    .transactionAlreadyRegistered
      ("Transaction with nonce " ++ nonce ++ " already registered.")
  else if (errors.getD 1 none).isSome then
    .insufficientFunds
      "Wallet has insufficient funds to complete operation"
  else if (errors.getD 2 none).isSome then
    .walletDoesNotExists "Wallet does not exists"
  else
    .baseWalletError "TransactionMultipleError"

/-- `Wallet.create_wallet`: one atomic three-item batch, in order the
create-transaction record, the wallet item with balance 0, and the
user→wallet link, each a conditional put.  The generated UUID and the
record TTL are explicit parameters. -/
def create_wallet (s : Store) (user_id wallet_id : String) (ttl : Int) :
    Except WalletError Store :=
  let transaction_pk := get_unique_id wallet_id none
  let user_pk := user_id ++ USER_KEY_POSTFIX
  match transact_write_items PK_ATTRIBUTE_NAME s
    [ put_idempotency_item WALLET_TABLE_NAME PK_ATTRIBUTE_NAME
        transaction_pk
        (transaction_as_dict ttl "create" [("amount", .N DEFAULT_BALANCE)]),
      put_idempotency_item WALLET_TABLE_NAME PK_ATTRIBUTE_NAME
        (wallet_unique_id wallet_id) [(BALANCE_KEY, .N DEFAULT_BALANCE)],
      put_idempotency_item WALLET_TABLE_NAME PK_ATTRIBUTE_NAME
        user_pk [(USER_WALLET_KEY, .S wallet_id)] ] with
  | .ok s' => .ok s'
  | .error (.cancelled reasons) =>
      .error (create_error_interpretation user_pk
        (transactionMultipleErrors reasons))
  | .error (.tooManyItems m) => .error (.valueError m)

/-- `Wallet.atomic_deposit`: builds the two-item batch (conditional put
of the transaction record, then the balance increment).  The factory
raises `ValueError` on `amount ≤ 0` while the batch is being built,
before any backend call. -/
def atomic_deposit (s : Store) (wallet_id : String) (amount : Int)
    (nonce : String) (ttl : Int) : Except WalletError Store :=
  let transaction_pk := get_unique_id wallet_id (some nonce)
  match update_atomic_increment WALLET_TABLE_NAME PK_ATTRIBUTE_NAME
      (wallet_unique_id wallet_id) BALANCE_KEY amount with
  | .error m => .error (.valueError m)
  | .ok inc =>
    match transact_write_items PK_ATTRIBUTE_NAME s
      [ put_idempotency_item WALLET_TABLE_NAME PK_ATTRIBUTE_NAME
          transaction_pk
          (transaction_as_dict ttl "deposit" [("amount", .N amount)]),
        inc ] with
    | .ok s' => .ok s'
    | .error (.cancelled reasons) =>
        .error (deposit_error_interpretation wallet_id nonce
          (transactionMultipleErrors reasons))
    | .error (.tooManyItems m) => .error (.valueError m)

/-- `Wallet.atomic_transfer`: rejects a self-transfer locally with
`ValueError`, then builds the three-item batch (transaction record put,
source balance decrement conditioned on `balance ≥ amount`, target
balance increment conditioned on existence).  The decrement factory
raises `ValueError` on `amount ≤ 0` while the batch is being built. -/
def atomic_transfer (s : Store) (wallet_id target_wallet : String)
    (amount : Int) (nonce : String) (ttl : Int) : Except WalletError Store :=
  if wallet_id = target_wallet then
    .error (.valueError "Impossible to transfer funds to self")
  else
    let transaction_pk := get_unique_id wallet_id (some nonce)
    match update_atomic_decrement WALLET_TABLE_NAME PK_ATTRIBUTE_NAME
        (wallet_unique_id wallet_id) BALANCE_KEY amount with
    | .error m => .error (.valueError m)
    | .ok dec =>
      match update_atomic_increment WALLET_TABLE_NAME PK_ATTRIBUTE_NAME
          (wallet_unique_id target_wallet) BALANCE_KEY amount with
      | .error m => .error (.valueError m)
      | .ok inc =>
        match transact_write_items PK_ATTRIBUTE_NAME s
          [ put_idempotency_item WALLET_TABLE_NAME PK_ATTRIBUTE_NAME
              transaction_pk
              (transaction_as_dict ttl "transfer"
                [("amount", .N amount), ("target_wallet", .S target_wallet)]),
            dec, inc ] with
        | .ok s' => .ok s'
        | .error (.cancelled reasons) =>
            .error (transfer_error_interpretation nonce
              (transactionMultipleErrors reasons))
        | .error (.tooManyItems m) => .error (.valueError m)

/-- The balance attribute of a wallet as an integer, when present
(`Wallet.get_balance` reads exactly this projection). -/
def balanceOf (s : Store) (wallet_id : String) : Option Int :=
  match s.lookup (wallet_unique_id wallet_id) with
  | none => none
  | some it =>
      match Item.get it BALANCE_KEY with
      | some (.N b) => some b
      | _ => none

/-! ## Sequences of engine operations -/

/-- One engine operation with all its nondeterministic inputs (caller
arguments, generated UUID, wall-clock TTL) made explicit. -/
inductive WalletOp where
  | create (user_id wallet_id : String) (ttl : Int)
  | deposit (wallet_id : String) (amount : Int) (nonce : String) (ttl : Int)
  | transfer (wallet_id target_wallet : String) (amount : Int)
      (nonce : String) (ttl : Int)

/-- The state after attempting one operation: a failed operation leaves
the store unchanged (the transactional write is all-or-nothing). -/
def applyWalletOp (s : Store) (op : WalletOp) : Store :=
  match op with
  | .create u w ttl =>
      match create_wallet s u w ttl with
      | .ok s' => s'
      | .error _ => s
  | .deposit w a n ttl =>
      match atomic_deposit s w a n ttl with
      | .ok s' => s'
      | .error _ => s
  | .transfer w t a n ttl =>
      match atomic_transfer s w t a n ttl with
      | .ok s' => s'
      | .error _ => s

/-- Run a sequence of operations.  Concurrency reduces to this: the
backend executes each transactional write atomically, so any
interleaving of concurrent attempts is some sequence of operations. -/
def runOps (s : Store) (ops : List WalletOp) : Store :=
  ops.foldl applyWalletOp s

/-! ## HTTP surface (`api/v1/schemas/wallet.py`, `api/v1/endpoints/wallets.py`) -/

/-- Pydantic's `regex=r"\d+"` constraint: validated with
`pattern.match`, which anchors only at the start of the string, so it
accepts exactly the strings beginning with a digit (digits modelled as
ASCII; the claims only exercise ASCII inputs). -/
def regex_digits_match (s : String) : Bool :=
  match s.data with
  | [] => false
  | c :: _ => c.isDigit

/-- The `amount` field of `WalletAmountWithNonce`: strict string with
`min_length=1`, `max_length=20` and `regex=r"\d+"`. -/
def valid_amount_field (s : String) : Bool :=
  1 ≤ s.length && s.length ≤ 20 && regex_digits_match s

/-- The `nonce` field of `WalletAmountWithNonce`: strict string with
`min_length=8`, `max_length=16`. -/
def valid_nonce_field (s : String) : Bool :=
  8 ≤ s.length && s.length ≤ 16

/-- Decimal value of a digit list. -/
def decDigitsVal (l : List Char) : Int :=
  l.foldl (fun acc c => acc * 10 + ((c.toNat : Int) - ('0'.toNat : Int))) 0

/-- Python `int(s)` on the strings that reach `amount_int`: an optional
sign followed by decimal digits converts; anything else raises
`ValueError` (modelled as `none`). -/
def pyInt (s : String) : Option Int :=
  match s.data with
  | [] => none
  | '-' :: rest =>
      if rest ≠ [] && rest.all Char.isDigit then some (-(decDigitsVal rest))
      else none
  | '+' :: rest =>
      if rest ≠ [] && rest.all Char.isDigit then some (decDigitsVal rest)
      else none
  | l => if l.all Char.isDigit then some (decDigitsVal l) else none

/-- HTTP status for an engine error: the `code` attributes of the
wallet exceptions (409/404), the handler only covering
`BaseWalletError`; a `ValueError` escapes it and surfaces as 500. -/
def walletErrorStatus : WalletError → Nat
  | .transactionAlreadyRegistered _ => 409
  | .walletAlreadyExists _ => 409
  | .walletDoesNotExists _ => 404
  | .insufficientFunds _ => 409
  | .baseWalletError _ => 500
  | .valueError _ => 500

/-- `PUT /wallets/{id}/deposit`: pydantic validates the body first
(422 on failure, no backend call); then `amount_int` converts the
string (`ValueError` → 500, no backend call); then the engine runs.  A
failed request leaves the store unchanged. -/
def wallet_deposit_endpoint (s : Store) (wallet_id amount nonce : String)
    (ttl : Int) : Nat × Store :=
  if valid_amount_field amount && valid_nonce_field nonce then
    match pyInt amount with
    | none => (500, s)
    | some a =>
        match atomic_deposit s wallet_id a nonce ttl with
        | .ok s' => (204, s')
        | .error e => (walletErrorStatus e, s)
  else (422, s)

/-- `PUT /wallets/{source}/transfer/{target}`: same body validation as
deposit, then the engine's atomic transfer. -/
def wallet_transfer_endpoint (s : Store)
    (wallet_id target_wallet amount nonce : String) (ttl : Int) :
    Nat × Store :=
  if valid_amount_field amount && valid_nonce_field nonce then
    match pyInt amount with
    | none => (500, s)
    | some a =>
        match atomic_transfer s wallet_id target_wallet a nonce ttl with
        | .ok s' => (204, s')
        | .error e => (walletErrorStatus e, s)
  else (422, s)

/-! ## Basic lemmas about items, the store and the key encoding -/

theorem Item.get_append (l₁ l₂ : Item) (a : String) :
    Item.get (l₁ ++ l₂) a =
      match Item.get l₁ a with
      | some v => some v
      | none => Item.get l₂ a := by
  induction l₁ with
  | nil => simp [Item.get]
  | cons p rest ih =>
      obtain ⟨k, v⟩ := p
      by_cases h : k = a <;> simp [Item.get, h, ih]

theorem Item.get_set (it : Item) (a a' : String) (v : AttrValue) :
    Item.get (Item.set it a v) a' =
      if a' = a then some v else Item.get it a' := by
  induction it with
  | nil =>
      rcases eq_or_ne a' a with h | h
      · subst h; simp [Item.set, Item.get]
      · simp [Item.set, Item.get, h, Ne.symm h]
  | cons p rest ih =>
      obtain ⟨k, w⟩ := p
      rcases eq_or_ne k a with hk | hk
      · subst hk
        rcases eq_or_ne a' k with h | h
        · subst h; simp [Item.set, Item.get]
        · simp [Item.set, Item.get, h, Ne.symm h]
      · rcases eq_or_ne a' a with h | h
        · subst h
          simp [Item.set, Item.get, hk, Ne.symm hk, ih]
        · simp [Item.set, Item.get, hk, h, ih]

theorem Store.lookup_set (s : Store) (k k' : String) (it : Item) :
    Store.lookup (Store.set s k it) k' =
      if k' = k then some it else Store.lookup s k' := by
  induction s with
  | nil =>
      rcases eq_or_ne k' k with h | h
      · subst h; simp [Store.set, Store.lookup]
      · simp [Store.set, Store.lookup, h, Ne.symm h]
  | cons p rest ih =>
      obtain ⟨k₀, it₀⟩ := p
      rcases eq_or_ne k₀ k with hk | hk
      · subst hk
        rcases eq_or_ne k' k₀ with h | h
        · subst h; simp [Store.set, Store.lookup]
        · simp [Store.set, Store.lookup, h, Ne.symm h]
      · rcases eq_or_ne k' k with h | h
        · subst h
          simp [Store.set, Store.lookup, hk, Ne.symm hk, ih]
        · simp [Store.set, Store.lookup, hk, h, ih]

/-- The last character of a string, used to separate the key spaces. -/
def strLast (s : String) : Option Char := s.data.getLast?

theorem strLast_append (a b : String) (c : Char)
    (h : strLast b = some c) : strLast (a ++ b) = some c := by
  simp only [strLast, String.data_append, List.getLast?_append]
  simp only [strLast] at h
  simp [h, Option.or]

/-- Wallet keys and transaction-record keys never collide: they end in
different characters. -/
theorem wallet_key_ne_transaction_key (a b : String) :
    a ++ WALLET_KEY_POSTFIX ≠ b ++ TRANSACTION_KEY_POSTFIX := by
  intro h
  have h₁ : strLast (a ++ WALLET_KEY_POSTFIX) = some 't' :=
    strLast_append _ _ _ rfl
  have h₂ : strLast (b ++ TRANSACTION_KEY_POSTFIX) = some 'n' :=
    strLast_append _ _ _ rfl
  rw [h, h₂] at h₁
  exact absurd (Option.some.inj h₁) (by decide)

/-- Wallet keys and user-link keys never collide. -/
theorem wallet_key_ne_user_key (a b : String) :
    a ++ WALLET_KEY_POSTFIX ≠ b ++ USER_KEY_POSTFIX := by
  intro h
  have h₁ : strLast (a ++ WALLET_KEY_POSTFIX) = some 't' :=
    strLast_append _ _ _ rfl
  have h₂ : strLast (b ++ USER_KEY_POSTFIX) = some 'r' :=
    strLast_append _ _ _ rfl
  rw [h, h₂] at h₁
  exact absurd (Option.some.inj h₁) (by decide)

/-- User-link keys and transaction-record keys never collide. -/
theorem user_key_ne_transaction_key (a b : String) :
    a ++ USER_KEY_POSTFIX ≠ b ++ TRANSACTION_KEY_POSTFIX := by
  intro h
  have h₁ : strLast (a ++ USER_KEY_POSTFIX) = some 'r' :=
    strLast_append _ _ _ rfl
  have h₂ : strLast (b ++ TRANSACTION_KEY_POSTFIX) = some 'n' :=
    strLast_append _ _ _ rfl
  rw [h, h₂] at h₁
  exact absurd (Option.some.inj h₁) (by decide)

/-- Every transaction-record key ends in `#transaction`. -/
theorem get_unique_id_shape (w : String) (nonce : Option String) :
    ∃ x, get_unique_id w nonce = x ++ TRANSACTION_KEY_POSTFIX := by
  match nonce with
  | none => exact ⟨w, rfl⟩
  | some n =>
      by_cases h : n = ""
      · exact ⟨w, by simp [get_unique_id, h]⟩
      · exact ⟨w ++ "_" ++ n, by simp [get_unique_id, h]⟩

/-- A wallet key never equals a transaction-record key. -/
theorem wallet_unique_id_ne_get_unique_id (w a : String)
    (nonce : Option String) :
    wallet_unique_id w ≠ get_unique_id a nonce := by
  obtain ⟨x, hx⟩ := get_unique_id_shape a nonce
  rw [hx]
  exact wallet_key_ne_transaction_key w x

/-- `wallet_unique_id` is injective. -/
theorem wallet_unique_id_inj {a b : String}
    (h : wallet_unique_id a = wallet_unique_id b) : a = b := by
  have : a.data ++ WALLET_KEY_POSTFIX.data = b.data ++ WALLET_KEY_POSTFIX.data := by
    have := congrArg String.data h
    simpa [wallet_unique_id] using this
  have hdata : a.data = b.data := List.append_cancel_right this
  cases a; cases b; exact congrArg String.mk hdata

/-! ## Per-operation semantics lemmas -/

/-- A transaction record (or any item carrying the primary-key
attribute) is present at key `k`: exactly the situation in which the
factory's conditional put of `k` fails. -/
def txRecorded (s : Store) (k : String) : Bool :=
  match s.lookup k with
  | none => false
  | some it => (Item.get it PK_ATTRIBUTE_NAME).isSome

/-- The numeric value of attribute `attr` of the item at `pk`, when
both exist. -/
def numAttr (s : Store) (pk attr : String) : Option Int :=
  match s.lookup pk with
  | none => none
  | some it =>
      match Item.get it attr with
      | some (.N b) => some b
      | _ => none

theorem balanceOf_eq_numAttr (s : Store) (w : String) :
    balanceOf s w = numAttr s (wallet_unique_id w) BALANCE_KEY := rfl

theorem opReasonCode_put_idempotency (tn pk : String) (data : Item)
    (hdata : Item.get data PK_ATTRIBUTE_NAME = none) (s : Store) :
    opReasonCode PK_ATTRIBUTE_NAME s
        (put_idempotency_item tn PK_ATTRIBUTE_NAME pk data) =
      if txRecorded s pk then some "ConditionalCheckFailed" else none := by
  have htarget :
      Item.get (data ++ [(PK_ATTRIBUTE_NAME, AttrValue.S pk)]) PK_ATTRIBUTE_NAME
        = some (.S pk) := by
    rw [Item.get_append, hdata]
    simp [Item.get]
  simp only [opReasonCode, put_idempotency_item, opTargetPk, htarget]
  simp only [evalCondExpr, if_pos rfl]
  unfold txRecorded
  cases h : Store.lookup s pk with
  | none => simp
  | some it =>
      cases hpk : Item.get it PK_ATTRIBUTE_NAME <;>
        simp [Option.isNone, Option.isSome, hpk]

theorem opReasonCode_update_increment (tn pk uk : String) (a : Int)
    (s : Store) :
    opReasonCode PK_ATTRIBUTE_NAME s (.Update
      { tableName := tn, keyPk := pk,
        updateExpression := "SET #key = #key + :n",
        conditionExpression := "attribute_exists(#key)",
        exprAttrValueN := a, exprAttrNameKey := uk }) =
      match Store.lookup s pk with
      | none => some "ConditionalCheckFailed"
      | some it =>
          match Item.get it uk with
          | some (.N _) => none
          | some _ => some "ValidationError"
          | none => some "ConditionalCheckFailed" := by
  simp only [opReasonCode, opTargetPk]
  cases h : Store.lookup s pk with
  | none => simp [evalCondExpr]
  | some it =>
      cases hv : Item.get it uk with
      | none => simp [evalCondExpr, hv, Option.isSome]
      | some v => cases v <;> simp [evalCondExpr, hv, Option.isSome]

theorem opReasonCode_update_decrement (tn pk uk : String) (a : Int)
    (s : Store) :
    opReasonCode PK_ATTRIBUTE_NAME s (.Update
      { tableName := tn, keyPk := pk,
        updateExpression := "SET #key = #key - :n",
        conditionExpression := "#key >= :n",
        exprAttrValueN := a, exprAttrNameKey := uk }) =
      match Store.lookup s pk with
      | none => some "ConditionalCheckFailed"
      | some it =>
          match Item.get it uk with
          | some (.N b) =>
              if a ≤ b then none else some "ConditionalCheckFailed"
          | _ => some "ConditionalCheckFailed" := by
  simp only [opReasonCode, opTargetPk]
  cases h : Store.lookup s pk with
  | none => simp [evalCondExpr]
  | some it =>
      cases hv : Item.get it uk with
      | none => simp [evalCondExpr, hv]
      | some v =>
          cases v with
          | N b =>
              by_cases hb : a ≤ b <;> simp [evalCondExpr, hv, hb]
          | S str => simp [evalCondExpr, hv]
          | M m => simp [evalCondExpr, hv]

theorem applyOp_put_idempotency (tn pk : String) (data : Item) (s : Store)
    (hdata : Item.get data PK_ATTRIBUTE_NAME = none) :
    applyOp PK_ATTRIBUTE_NAME s (put_idempotency_item tn PK_ATTRIBUTE_NAME pk data)
      = s.set pk (data ++ [(PK_ATTRIBUTE_NAME, .S pk)]) := by
  have htarget :
      Item.get (data ++ [(PK_ATTRIBUTE_NAME, AttrValue.S pk)]) PK_ATTRIBUTE_NAME
        = some (.S pk) := by
    rw [Item.get_append, hdata]
    simp [Item.get]
  simp [applyOp, put_idempotency_item, opTargetPk, htarget]

theorem applyOp_update_increment (tn pk uk : String) (a b : Int)
    (s : Store) (it : Item) (hit : Store.lookup s pk = some it)
    (hb : Item.get it uk = some (.N b)) :
    applyOp PK_ATTRIBUTE_NAME s (.Update
      { tableName := tn, keyPk := pk,
        updateExpression := "SET #key = #key + :n",
        conditionExpression := "attribute_exists(#key)",
        exprAttrValueN := a, exprAttrNameKey := uk }) =
      s.set pk (Item.set it uk (.N (b + a))) := by
  simp [applyOp, hit, hb]

theorem applyOp_update_decrement (tn pk uk : String) (a b : Int)
    (s : Store) (it : Item) (hit : Store.lookup s pk = some it)
    (hb : Item.get it uk = some (.N b)) :
    applyOp PK_ATTRIBUTE_NAME s (.Update
      { tableName := tn, keyPk := pk,
        updateExpression := "SET #key = #key - :n",
        conditionExpression := "#key >= :n",
        exprAttrValueN := a, exprAttrNameKey := uk }) =
      s.set pk (Item.set it uk (.N (b - a))) := by
  simp [applyOp, hit, hb]

/-- The cancellation reason reported for one operation, from its
evaluation outcome. -/
def reasonOf : Option String → CancellationReason
  | none => { code := "None", message := "" }
  | some c => { code := c, message := "The conditional request failed" }

theorem transact_two (s : Store) (op₁ op₂ : TransactItem) :
    transact_write_items PK_ATTRIBUTE_NAME s [op₁, op₂] =
      match opReasonCode PK_ATTRIBUTE_NAME s op₁,
            opReasonCode PK_ATTRIBUTE_NAME s op₂ with
      | none, none =>
          .ok (applyOp PK_ATTRIBUTE_NAME (applyOp PK_ATTRIBUTE_NAME s op₁) op₂)
      | r₁, r₂ =>
          .error (.cancelled [reasonOf r₁, reasonOf r₂]) := by
  cases h₁ : opReasonCode PK_ATTRIBUTE_NAME s op₁ <;>
    cases h₂ : opReasonCode PK_ATTRIBUTE_NAME s op₂ <;>
      simp [transact_write_items, h₁, h₂, reasonOf, List.all, List.foldl]

theorem transact_three (s : Store) (op₁ op₂ op₃ : TransactItem) :
    transact_write_items PK_ATTRIBUTE_NAME s [op₁, op₂, op₃] =
      match opReasonCode PK_ATTRIBUTE_NAME s op₁,
            opReasonCode PK_ATTRIBUTE_NAME s op₂,
            opReasonCode PK_ATTRIBUTE_NAME s op₃ with
      | none, none, none =>
          .ok (applyOp PK_ATTRIBUTE_NAME
            (applyOp PK_ATTRIBUTE_NAME (applyOp PK_ATTRIBUTE_NAME s op₁) op₂)
            op₃)
      | r₁, r₂, r₃ =>
          .error (.cancelled [reasonOf r₁, reasonOf r₂, reasonOf r₃]) := by
  cases h₁ : opReasonCode PK_ATTRIBUTE_NAME s op₁ <;>
    cases h₂ : opReasonCode PK_ATTRIBUTE_NAME s op₂ <;>
      cases h₃ : opReasonCode PK_ATTRIBUTE_NAME s op₃ <;>
        simp [transact_write_items, h₁, h₂, h₃, reasonOf, List.all, List.foldl]

/-! ## Characterizations of the engine operations -/

/-- The deposit transaction-record item as stored. -/
def depositTxItem (w : String) (a : Int) (n : String) (ttl : Int) : Item :=
  transaction_as_dict ttl "deposit" [("amount", .N a)]
    ++ [(PK_ATTRIBUTE_NAME, .S (get_unique_id w (some n)))]

theorem get_pk_transaction_as_dict (ttl : Int) (type : String)
    (data : List (String × ScalarValue)) :
    Item.get (transaction_as_dict ttl type data) PK_ATTRIBUTE_NAME = none := by
  simp [transaction_as_dict, Item.get, PK_ATTRIBUTE_NAME]

/-- Full characterization of `Wallet.atomic_deposit` for a positive
amount: a replayed transaction record wins (already-registered), an
absent wallet (or one without a numeric balance) reports
does-not-exist, otherwise the record is inserted and the balance
incremented atomically. -/
theorem atomic_deposit_spec (s : Store) (w : String) (a : Int) (n : String)
    (ttl : Int) (ha : 0 < a) :
    atomic_deposit s w a n ttl =
      (if txRecorded s (get_unique_id w (some n)) then
        .error (.transactionAlreadyRegistered
          ("Transaction with nonce " ++ n ++ " already registered."))
      else
        match Store.lookup s (wallet_unique_id w) with
        | none => .error (.walletDoesNotExists
            ("Wallet with self.wallet_id=" ++ w ++ " does not exists"))
        | some it =>
            match Item.get it BALANCE_KEY with
            | some (.N b) =>
                .ok ((s.set (get_unique_id w (some n))
                      (depositTxItem w a n ttl)).set
                    (wallet_unique_id w)
                    (Item.set it BALANCE_KEY (.N (b + a))))
            | _ => .error (.walletDoesNotExists
                ("Wallet with self.wallet_id=" ++ w ++ " does not exists"))) := by
  have hinc : update_atomic_increment WALLET_TABLE_NAME PK_ATTRIBUTE_NAME
      (wallet_unique_id w) BALANCE_KEY a =
      Except.ok (TransactItem.Update
        { tableName := WALLET_TABLE_NAME, keyPk := wallet_unique_id w,
          updateExpression := "SET #key = #key + :n",
          conditionExpression := "attribute_exists(#key)",
          exprAttrValueN := a, exprAttrNameKey := BALANCE_KEY }) := by
    unfold update_atomic_increment
    rw [if_neg (not_le.mpr ha)]
  have hkne : wallet_unique_id w ≠ get_unique_id w (some n) :=
    wallet_unique_id_ne_get_unique_id w w (some n)
  simp only [atomic_deposit, hinc]
  rw [transact_two]
  rw [opReasonCode_put_idempotency _ _ _ (get_pk_transaction_as_dict _ _ _)]
  rw [opReasonCode_update_increment]
  by_cases htx : txRecorded s (get_unique_id w (some n))
  · simp only [htx, if_pos, if_true]
    cases hwk : Store.lookup s (wallet_unique_id w) with
    | none =>
        simp [transactionMultipleErrors, reasonOf,
          deposit_error_interpretation]
    | some it =>
        cases hv : Item.get it BALANCE_KEY with
        | none =>
            simp [transactionMultipleErrors, reasonOf,
              deposit_error_interpretation]
        | some v =>
            cases v <;>
              simp [transactionMultipleErrors, reasonOf,
                deposit_error_interpretation]
  · simp only [htx, if_neg, if_false, Bool.false_eq_true]
    cases hwk : Store.lookup s (wallet_unique_id w) with
    | none =>
        simp [hwk, transactionMultipleErrors, reasonOf,
          deposit_error_interpretation]
    | some it =>
        cases hv : Item.get it BALANCE_KEY with
        | none =>
            simp [hwk, hv, transactionMultipleErrors, reasonOf,
              deposit_error_interpretation]
        | some v =>
            cases v with
            | N b =>
                have happ₁ := applyOp_put_idempotency WALLET_TABLE_NAME
                  (get_unique_id w (some n))
                  (transaction_as_dict ttl "deposit" [("amount", .N a)]) s
                  (get_pk_transaction_as_dict _ _ _)
                have hwk' : Store.lookup
                    (s.set (get_unique_id w (some n))
                      (transaction_as_dict ttl "deposit" [("amount", .N a)]
                        ++ [(PK_ATTRIBUTE_NAME,
                              .S (get_unique_id w (some n)))]))
                    (wallet_unique_id w) = some it := by
                  rw [Store.lookup_set, if_neg hkne, hwk]
                have happ₂ := applyOp_update_increment WALLET_TABLE_NAME
                  (wallet_unique_id w) BALANCE_KEY a b
                  (s.set (get_unique_id w (some n))
                    (transaction_as_dict ttl "deposit" [("amount", .N a)]
                      ++ [(PK_ATTRIBUTE_NAME,
                            .S (get_unique_id w (some n)))]))
                  it hwk' hv
                simp [hwk, hv, happ₁, happ₂, depositTxItem]
            | S str =>
                simp [hwk, hv, transactionMultipleErrors, reasonOf,
                  deposit_error_interpretation]
            | M m =>
                simp [hwk, hv, transactionMultipleErrors, reasonOf,
                  deposit_error_interpretation]

/-- The transfer transaction-record item as stored. -/
def transferTxItem (w t : String) (a : Int) (n : String) (ttl : Int) : Item :=
  transaction_as_dict ttl "transfer"
      [("amount", .N a), ("target_wallet", .S t)]
    ++ [(PK_ATTRIBUTE_NAME, .S (get_unique_id w (some n)))]

/-- Full characterization of `Wallet.atomic_transfer` for a positive
amount and distinct wallets: replayed nonce wins (already-registered);
then a source that is absent or lacks `balance ≥ amount` reports
insufficient funds; then a target absent or without a numeric balance
reports does-not-exist; otherwise the record is inserted, the source
debited and the target credited atomically. -/
theorem atomic_transfer_spec (s : Store) (w t : String) (a : Int)
    (n : String) (ttl : Int) (ha : 0 < a) (hne : w ≠ t) :
    atomic_transfer s w t a n ttl =
      (if txRecorded s (get_unique_id w (some n)) then
        .error (.transactionAlreadyRegistered
          ("Transaction with nonce " ++ n ++ " already registered."))
      else
        match Store.lookup s (wallet_unique_id w) with
        | none => .error (.insufficientFunds
            "Wallet has insufficient funds to complete operation")
        | some it =>
            match Item.get it BALANCE_KEY with
            | some (.N b) =>
                if a ≤ b then
                  match Store.lookup s (wallet_unique_id t) with
                  | none => .error (.walletDoesNotExists
                      "Wallet does not exists")
                  | some it' =>
                      match Item.get it' BALANCE_KEY with
                      | some (.N b') =>
                          .ok ((((s.set (get_unique_id w (some n))
                                  (transferTxItem w t a n ttl)).set
                                (wallet_unique_id w)
                                (Item.set it BALANCE_KEY (.N (b - a)))).set
                              (wallet_unique_id t)
                              (Item.set it' BALANCE_KEY (.N (b' + a)))))
                      | _ => .error (.walletDoesNotExists
                          "Wallet does not exists")
                else .error (.insufficientFunds
                    "Wallet has insufficient funds to complete operation")
            | _ => .error (.insufficientFunds
                "Wallet has insufficient funds to complete operation")) := by
  have hdec : update_atomic_decrement WALLET_TABLE_NAME PK_ATTRIBUTE_NAME
      (wallet_unique_id w) BALANCE_KEY a =
      Except.ok (TransactItem.Update
        { tableName := WALLET_TABLE_NAME, keyPk := wallet_unique_id w,
          updateExpression := "SET #key = #key - :n",
          conditionExpression := "#key >= :n",
          exprAttrValueN := a, exprAttrNameKey := BALANCE_KEY }) := by
    unfold update_atomic_decrement
    rw [if_neg (not_le.mpr ha)]
  have hinc : update_atomic_increment WALLET_TABLE_NAME PK_ATTRIBUTE_NAME
      (wallet_unique_id t) BALANCE_KEY a =
      Except.ok (TransactItem.Update
        { tableName := WALLET_TABLE_NAME, keyPk := wallet_unique_id t,
          updateExpression := "SET #key = #key + :n",
          conditionExpression := "attribute_exists(#key)",
          exprAttrValueN := a, exprAttrNameKey := BALANCE_KEY }) := by
    unfold update_atomic_increment
    rw [if_neg (not_le.mpr ha)]
  have hwkne : wallet_unique_id w ≠ get_unique_id w (some n) :=
    wallet_unique_id_ne_get_unique_id w w (some n)
  have htkne : wallet_unique_id t ≠ get_unique_id w (some n) :=
    wallet_unique_id_ne_get_unique_id t w (some n)
  have htwne : wallet_unique_id t ≠ wallet_unique_id w :=
    fun h => hne (wallet_unique_id_inj h).symm
  simp only [atomic_transfer, if_neg hne, hdec, hinc]
  rw [transact_three]
  rw [opReasonCode_put_idempotency _ _ _ (get_pk_transaction_as_dict _ _ _)]
  rw [opReasonCode_update_decrement, opReasonCode_update_increment]
  by_cases htx : txRecorded s (get_unique_id w (some n))
  · simp [htx, transactionMultipleErrors, reasonOf,
      transfer_error_interpretation]
  · simp only [htx, if_neg, if_false, Bool.false_eq_true]
    cases hwk : Store.lookup s (wallet_unique_id w) with
    | none =>
        simp [hwk, transactionMultipleErrors, reasonOf,
          transfer_error_interpretation]
    | some it =>
        cases hv : Item.get it BALANCE_KEY with
        | none =>
            simp [hwk, hv, transactionMultipleErrors, reasonOf,
              transfer_error_interpretation]
        | some v =>
            cases v with
            | S str =>
                simp [hwk, hv, transactionMultipleErrors, reasonOf,
                  transfer_error_interpretation]
            | M m =>
                simp [hwk, hv, transactionMultipleErrors, reasonOf,
                  transfer_error_interpretation]
            | N b =>
                by_cases hb : a ≤ b
                · cases htw : Store.lookup s (wallet_unique_id t) with
                  | none =>
                      simp [hwk, hv, hb, htw, transactionMultipleErrors,
                        reasonOf, transfer_error_interpretation]
                  | some it' =>
                      cases hv' : Item.get it' BALANCE_KEY with
                      | none =>
                          simp [hwk, hv, hb, htw, hv',
                            transactionMultipleErrors, reasonOf,
                            transfer_error_interpretation]
                      | some v' =>
                          cases v' with
                          | S str =>
                              simp [hwk, hv, hb, htw, hv',
                                transactionMultipleErrors, reasonOf,
                                transfer_error_interpretation]
                          | M m =>
                              simp [hwk, hv, hb, htw, hv',
                                transactionMultipleErrors, reasonOf,
                                transfer_error_interpretation]
                          | N b' =>
                              have happ₁ := applyOp_put_idempotency
                                WALLET_TABLE_NAME (get_unique_id w (some n))
                                (transaction_as_dict ttl "transfer"
                                  [("amount", .N a), ("target_wallet", .S t)])
                                s (get_pk_transaction_as_dict _ _ _)
                              have hwk' : Store.lookup
                                  (s.set (get_unique_id w (some n))
                                    (transaction_as_dict ttl "transfer"
                                        [("amount", .N a),
                                         ("target_wallet", .S t)]
                                      ++ [(PK_ATTRIBUTE_NAME,
                                            .S (get_unique_id w (some n)))]))
                                  (wallet_unique_id w) = some it := by
                                rw [Store.lookup_set, if_neg hwkne, hwk]
                              have happ₂ := applyOp_update_decrement
                                WALLET_TABLE_NAME (wallet_unique_id w)
                                BALANCE_KEY a b _ it hwk' hv
                              have htw' : Store.lookup
                                  ((s.set (get_unique_id w (some n))
                                      (transaction_as_dict ttl "transfer"
                                          [("amount", .N a),
                                           ("target_wallet", .S t)]
                                        ++ [(PK_ATTRIBUTE_NAME,
                                              .S (get_unique_id w (some n)))])).set
                                    (wallet_unique_id w)
                                    (Item.set it BALANCE_KEY (.N (b - a))))
                                  (wallet_unique_id t) = some it' := by
                                rw [Store.lookup_set, if_neg htwne,
                                  Store.lookup_set, if_neg htkne, htw]
                              have happ₃ := applyOp_update_increment
                                WALLET_TABLE_NAME (wallet_unique_id t)
                                BALANCE_KEY a b' _ it' htw' hv'
                              simp [hwk, hv, hb, htw, hv', happ₁, happ₂,
                                happ₃, transferTxItem]
                · simp [hwk, hv, hb, transactionMultipleErrors, reasonOf,
                    transfer_error_interpretation]

/-- The create transaction-record item as stored. -/
def createTxItem (w : String) (ttl : Int) : Item :=
  transaction_as_dict ttl "create" [("amount", .N DEFAULT_BALANCE)]
    ++ [(PK_ATTRIBUTE_NAME, .S (get_unique_id w none))]

/-- The wallet item as stored by `create_wallet`. -/
def createWalletItem (w : String) : Item :=
  [(BALANCE_KEY, .N DEFAULT_BALANCE)]
    ++ [(PK_ATTRIBUTE_NAME, .S (wallet_unique_id w))]

/-- The user→wallet link item as stored by `create_wallet`. -/
def createUserItem (u w : String) : Item :=
  [(USER_WALLET_KEY, .S w)]
    ++ [(PK_ATTRIBUTE_NAME, .S (u ++ USER_KEY_POSTFIX))]

/-- Full characterization of `Wallet.create_wallet`: an existing create
record for the generated wallet id wins (already-registered); an
existing wallet item or user link cancels with already-exists;
otherwise the three items are inserted atomically. -/
theorem create_wallet_spec (s : Store) (u w : String) (ttl : Int) :
    create_wallet s u w ttl =
      (if txRecorded s (get_unique_id w none) then
        .error (.transactionAlreadyRegistered "The conditional request failed")
      else if txRecorded s (wallet_unique_id w)
          || txRecorded s (u ++ USER_KEY_POSTFIX) then
        .error (.walletAlreadyExists
          ("Wallet already exists for the user " ++ (u ++ USER_KEY_POSTFIX)))
      else
        .ok (((s.set (get_unique_id w none) (createTxItem w ttl)).set
            (wallet_unique_id w) (createWalletItem w)).set
          (u ++ USER_KEY_POSTFIX) (createUserItem u w))) := by
  have hwdata : Item.get [(BALANCE_KEY, AttrValue.N DEFAULT_BALANCE)]
      PK_ATTRIBUTE_NAME = none := by
    simp [Item.get, BALANCE_KEY, PK_ATTRIBUTE_NAME]
  have hudata : Item.get [(USER_WALLET_KEY, AttrValue.S w)]
      PK_ATTRIBUTE_NAME = none := by
    simp [Item.get, USER_WALLET_KEY, PK_ATTRIBUTE_NAME]
  simp only [create_wallet]
  rw [transact_three]
  rw [opReasonCode_put_idempotency _ _ _ (get_pk_transaction_as_dict _ _ _)]
  rw [opReasonCode_put_idempotency _ _ _ hwdata]
  rw [opReasonCode_put_idempotency _ _ _ hudata]
  by_cases htx : txRecorded s (get_unique_id w none)
  · simp [htx, transactionMultipleErrors, reasonOf,
      create_error_interpretation]
  · by_cases hw : txRecorded s (wallet_unique_id w) <;>
      by_cases hu : txRecorded s (u ++ USER_KEY_POSTFIX) <;>
        simp [htx, hw, hu, transactionMultipleErrors, reasonOf,
          create_error_interpretation,
          applyOp_put_idempotency _ _ _ _ (get_pk_transaction_as_dict _ _ _),
          applyOp_put_idempotency _ _ _ _ hwdata,
          applyOp_put_idempotency _ _ _ _ hudata,
          createTxItem, createWalletItem, createUserItem]

/-! ## Claim theorems -/

/-- C9: `Transaction.get_unique_id` maps the empty-string nonce and the
absent nonce to the same key `<wallet>#transaction` — the key of the
wallet's create record — so a deposit or transfer invoked with an empty
nonce addresses the create record's key rather than a nonce-specific
one. -/
theorem c9_empty_nonce_key (w : String) :
    get_unique_id w (some "") = get_unique_id w none ∧
    get_unique_id w none = w ++ TRANSACTION_KEY_POSTFIX ∧
    get_unique_id w (some "") = w ++ "#transaction" := by
  refine ⟨rfl, rfl, rfl⟩

/-- C10: converting a transaction-level cancellation into the
`TransactionMultipleError` produces exactly one entry per submitted
operation, positionally: `None` exactly for reason code `"None"`, a
`ConditionalCheckFailed` sub-error for both `"ConditionalCheckFailed"`
and `"TransactionConflict"` (making a per-item transaction conflict
indistinguishable from a failed condition), and an `Unknown` sub-error
for any other code. -/
theorem c10_cancellation_mapping (reasons : List CancellationReason) :
    (transactionMultipleErrors reasons).length = reasons.length ∧
    (∀ i : Nat, i < reasons.length →
      ∀ r, reasons.get? i = some r →
        ((transactionMultipleErrors reasons).get? i = some none ↔
            r.code = "None") ∧
        (r.code = "ConditionalCheckFailed" ∨ r.code = "TransactionConflict" →
          (transactionMultipleErrors reasons).get? i =
            some (some (.conditionalCheckFailed r.message))) ∧
        (r.code ≠ "None" → r.code ≠ "ConditionalCheckFailed" →
          r.code ≠ "TransactionConflict" →
          (transactionMultipleErrors reasons).get? i =
            some (some (.unknown r.message)))) ∧
    (∀ m : String,
      transactionMultipleErrors [{ code := "TransactionConflict", message := m }]
        = transactionMultipleErrors
            [{ code := "ConditionalCheckFailed", message := m }]) := by
  refine ⟨by simp [transactionMultipleErrors], ?_, ?_⟩
  · intro i hi r hr
    have hmap : (transactionMultipleErrors reasons).get? i =
        (reasons.get? i).map (fun error =>
          if error.code = "ConditionalCheckFailed" then
            some (StorageSubError.conditionalCheckFailed error.message)
          else if error.code = "TransactionConflict" then
            some (StorageSubError.conditionalCheckFailed error.message)
          else if error.code = "None" then none
          else some (StorageSubError.unknown error.message)) := by
      simp [transactionMultipleErrors, List.get?_map]
    rw [hmap, hr]
    refine ⟨?_, ?_, ?_⟩
    · by_cases h₁ : r.code = "ConditionalCheckFailed"
      · simp [h₁]
      · by_cases h₂ : r.code = "TransactionConflict"
        · simp [h₁, h₂]
        · by_cases h₃ : r.code = "None" <;> simp [h₁, h₂, h₃]
    · rintro (h | h) <;> simp [h]
    · intro h₃ h₁ h₂
      simp [h₁, h₂, h₃]
  · intro m
    simp [transactionMultipleErrors]

/-- C4: interpretation of a cancelled transfer batch (the
`except TransactionMultipleError` block of `Wallet.atomic_transfer`):
a non-null reason in slot 0 raises already-registered; otherwise slot 1
raises insufficient-funds (which also covers a missing source wallet);
otherwise slot 2 raises wallet-not-found. -/
theorem c4_transfer_failure_interpretation (r₀ r₁ r₂ : CancellationReason)
    (n : String) :
    (r₀.code ≠ "None" →
      ∃ m, transfer_error_interpretation n
          (transactionMultipleErrors [r₀, r₁, r₂]) =
        .transactionAlreadyRegistered m) ∧
    (r₀.code = "None" → r₁.code ≠ "None" →
      ∃ m, transfer_error_interpretation n
          (transactionMultipleErrors [r₀, r₁, r₂]) =
        .insufficientFunds m) ∧
    (r₀.code = "None" → r₁.code = "None" → r₂.code ≠ "None" →
      ∃ m, transfer_error_interpretation n
          (transactionMultipleErrors [r₀, r₁, r₂]) =
        .walletDoesNotExists m) := by
  refine ⟨?_, ?_, ?_⟩
  · intro h₀
    by_cases h₁ : r₀.code = "ConditionalCheckFailed" <;>
      by_cases h₂ : r₀.code = "TransactionConflict" <;>
        simp [transactionMultipleErrors, transfer_error_interpretation,
          h₀, h₁, h₂]
  · intro h₀ h₁
    by_cases h₂ : r₁.code = "ConditionalCheckFailed" <;>
      by_cases h₃ : r₁.code = "TransactionConflict" <;>
        simp [transactionMultipleErrors, transfer_error_interpretation,
          h₀, h₁, h₂, h₃]
  · intro h₀ h₁ h₂
    by_cases h₃ : r₂.code = "ConditionalCheckFailed" <;>
      by_cases h₄ : r₂.code = "TransactionConflict" <;>
        simp [transactionMultipleErrors, transfer_error_interpretation,
          h₀, h₁, h₂, h₃, h₄]

/-- C5 counterexample: a failure at slot 1 alone (errors
`[None, ConditionalCheckFailed, None]`) is reported as
`WalletAlreadyExistsForUser`, not — as a slot-0 failure is — as
`TransactionAlreadyRegistered`: `Wallet.create_wallet` only tests
`e.errors[0]`. -/
theorem c5_counterexample :
    create_error_interpretation "user1#user"
        (transactionMultipleErrors
          [{ code := "None", message := "" },
           { code := "ConditionalCheckFailed",
             message := "The conditional request failed" },
           { code := "None", message := "" }])
      = .walletAlreadyExists "Wallet already exists for the user user1#user"
    ∧ create_error_interpretation "user1#user"
        (transactionMultipleErrors
          [{ code := "ConditionalCheckFailed",
             message := "The conditional request failed" },
           { code := "None", message := "" },
           { code := "None", message := "" }])
      = .transactionAlreadyRegistered "The conditional request failed" :=
  ⟨rfl, rfl⟩

/-- C5 (amended): interpretation of a cancelled create batch (the
`except TransactionMultipleError` block of `Wallet.create_wallet`): a
non-null reason in slot 0 raises already-registered; otherwise —
including a failure at slot 1 alone, the theoretically-possible UUID
collision — it raises wallet-already-exists-for-user. -/
theorem c5_create_failure_interpretation (r₀ r₁ r₂ : CancellationReason)
    (u : String) :
    (r₀.code ≠ "None" →
      ∃ m, create_error_interpretation u
          (transactionMultipleErrors [r₀, r₁, r₂]) =
        .transactionAlreadyRegistered m) ∧
    (r₀.code = "None" →
      create_error_interpretation u
          (transactionMultipleErrors [r₀, r₁, r₂]) =
        .walletAlreadyExists ("Wallet already exists for the user " ++ u)) := by
  constructor
  · intro h₀
    by_cases h₁ : r₀.code = "ConditionalCheckFailed" <;>
      by_cases h₂ : r₀.code = "TransactionConflict" <;>
        simp [transactionMultipleErrors, create_error_interpretation,
          h₀, h₁, h₂]
  · intro h₀
    simp [transactionMultipleErrors, create_error_interpretation, h₀]

/-- C5 witness. -/
theorem c5_create_failure_interpretation_witness :
    ({ code := "ConditionalCheckFailed",
       message := "The conditional request failed" } : CancellationReason).code
      ≠ "None" ∧
    ∃ m, create_error_interpretation "u1#user"
        (transactionMultipleErrors
          [{ code := "ConditionalCheckFailed",
             message := "The conditional request failed" },
           { code := "None", message := "" },
           { code := "None", message := "" }]) =
      .transactionAlreadyRegistered m :=
  ⟨by decide,
    (c5_create_failure_interpretation
      { code := "ConditionalCheckFailed",
        message := "The conditional request failed" }
      { code := "None", message := "" }
      { code := "None", message := "" } "u1#user").1 (by decide)⟩

/-- C6 counterexample: the `Update` produced by
`update_atomic_increment` binds `#key` — the attribute the
`attribute_exists(#key)` condition applies to — to the update attribute
(`balance`), not to the primary-key attribute (`pk`). -/
theorem c6_counterexample :
    update_atomic_increment "wallet" "pk" "w1#wallet" "balance" 5
      = Except.ok (TransactItem.Update
          { tableName := "wallet", keyPk := "w1#wallet",
            updateExpression := "SET #key = #key + :n",
            conditionExpression := "attribute_exists(#key)",
            exprAttrValueN := 5, exprAttrNameKey := "balance" })
    ∧ ("balance" : String) ≠ "pk" :=
  ⟨rfl, by decide⟩

/-- C6 (amended): `update_atomic_increment` rejects `n ≤ 0` with an
invalid-argument error before producing anything; for `n > 0` it
produces an `Update` whose condition is `attribute_exists` applied to
the updated attribute `attr` (not to the primary key), and whose effect
is `attr := attr + n`. -/
theorem c6_add_if_exists (tn pf pk attr : String) (a : Int) :
    (a ≤ 0 → update_atomic_increment tn pf pk attr a =
      .error ("Unable to decrement. Amount for the " ++ pk ++
        " can not be lower than 0")) ∧
    (0 < a → update_atomic_increment tn pf pk attr a =
      .ok (.Update
        { tableName := tn, keyPk := pk,
          updateExpression := "SET #key = #key + :n",
          conditionExpression := "attribute_exists(#key)",
          exprAttrValueN := a, exprAttrNameKey := attr })) ∧
    (∀ s it b, Store.lookup s pk = some it →
      Item.get it attr = some (.N b) →
      applyOp pf s (.Update
        { tableName := tn, keyPk := pk,
          updateExpression := "SET #key = #key + :n",
          conditionExpression := "attribute_exists(#key)",
          exprAttrValueN := a, exprAttrNameKey := attr }) =
        s.set pk (Item.set it attr (.N (b + a)))) := by
  refine ⟨?_, ?_, ?_⟩
  · intro h
    unfold update_atomic_increment
    rw [if_pos h]
  · intro h
    unfold update_atomic_increment
    rw [if_neg (not_le.mpr h)]
  · intro s it b hit hb
    simp [applyOp, hit, hb]

/-- C6 witness. -/
theorem c6_add_if_exists_witness :
    (0 : Int) < 5 ∧ update_atomic_increment "wallet" "pk" "k" "balance" 5 =
      .ok (.Update
        { tableName := "wallet", keyPk := "k",
          updateExpression := "SET #key = #key + :n",
          conditionExpression := "attribute_exists(#key)",
          exprAttrValueN := 5, exprAttrNameKey := "balance" }) :=
  ⟨by decide, (c6_add_if_exists "wallet" "pk" "k" "balance" 5).2.1 (by decide)⟩

/-! ## The non-negative balance invariant -/

/-- Every numeric `balance` attribute in the store is non-negative. -/
def balancesNonNeg (s : Store) : Prop :=
  ∀ pk it, Store.lookup s pk = some it →
    ∀ b : Int, Item.get it BALANCE_KEY = some (.N b) → 0 ≤ b

theorem balancesNonNeg_empty : balancesNonNeg Store.empty := by
  intro pk it h
  simp [Store.empty, Store.lookup] at h

theorem balancesNonNeg_set (s : Store) (k : String) (it : Item)
    (h : balancesNonNeg s)
    (hit : ∀ b : Int, Item.get it BALANCE_KEY = some (.N b) → 0 ≤ b) :
    balancesNonNeg (s.set k it) := by
  intro pk it' hlk b hb
  rw [Store.lookup_set] at hlk
  by_cases hpk : pk = k
  · rw [if_pos hpk] at hlk
    cases hlk
    exact hit b hb
  · rw [if_neg hpk] at hlk
    exact h pk it' hlk b hb

theorem get_balance_transaction_item (ttl : Int) (type : String)
    (data : List (String × ScalarValue)) (k : String) :
    Item.get (transaction_as_dict ttl type data
        ++ [(PK_ATTRIBUTE_NAME, .S k)]) BALANCE_KEY = none := by
  simp [transaction_as_dict, Item.get_append, Item.get, BALANCE_KEY,
    PK_ATTRIBUTE_NAME]

theorem atomic_deposit_nonpos (s : Store) (w : String) (a : Int)
    (n : String) (ttl : Int) (ha : a ≤ 0) :
    atomic_deposit s w a n ttl =
      .error (.valueError ("Unable to decrement. Amount for the "
        ++ wallet_unique_id w ++ " can not be lower than 0")) := by
  simp [atomic_deposit, update_atomic_increment, ha]

theorem atomic_transfer_self (s : Store) (w : String) (a : Int)
    (n : String) (ttl : Int) :
    atomic_transfer s w w a n ttl =
      .error (.valueError "Impossible to transfer funds to self") := by
  simp [atomic_transfer]

theorem atomic_transfer_nonpos (s : Store) (w t : String) (a : Int)
    (n : String) (ttl : Int) (hne : w ≠ t) (ha : a ≤ 0) :
    atomic_transfer s w t a n ttl =
      .error (.valueError ("Unable to decrement. Amount for the "
        ++ wallet_unique_id w ++ " can not be lower than 0")) := by
  simp [atomic_transfer, hne, update_atomic_decrement, ha]

theorem applyWalletOp_preserves_nonneg (s : Store) (op : WalletOp)
    (h : balancesNonNeg s) : balancesNonNeg (applyWalletOp s op) := by
  cases op with
  | create u w ttl =>
      simp only [applyWalletOp]
      rw [create_wallet_spec]
      by_cases htx : txRecorded s (get_unique_id w none)
      · simpa [htx] using h
      · by_cases hrest : (txRecorded s (wallet_unique_id w)
            || txRecorded s (u ++ USER_KEY_POSTFIX)) = true
        · simpa [htx, hrest] using h
        · simp only [htx, hrest, if_false, Bool.false_eq_true, if_neg]
          refine balancesNonNeg_set _ _ _
            (balancesNonNeg_set _ _ _ (balancesNonNeg_set _ _ _ h ?_) ?_) ?_
          · intro b hb
            rw [createTxItem, get_balance_transaction_item] at hb
            cases hb
          · intro b hb
            simp [createWalletItem, Item.get_append, Item.get, BALANCE_KEY,
              DEFAULT_BALANCE] at hb
            omega
          · intro b hb
            simp [createUserItem, Item.get_append, Item.get, BALANCE_KEY,
              USER_WALLET_KEY, PK_ATTRIBUTE_NAME] at hb
  | deposit w a n ttl =>
      simp only [applyWalletOp]
      by_cases ha : 0 < a
      · rw [atomic_deposit_spec s w a n ttl ha]
        by_cases htx : txRecorded s (get_unique_id w (some n))
        · simpa [htx] using h
        · simp only [htx, if_false, Bool.false_eq_true, if_neg]
          cases hwk : Store.lookup s (wallet_unique_id w) with
          | none => simpa [hwk] using h
          | some it =>
              cases hv : Item.get it BALANCE_KEY with
              | none => simpa [hwk, hv] using h
              | some v =>
                  cases v with
                  | S str => simpa [hwk, hv] using h
                  | M m => simpa [hwk, hv] using h
                  | N b =>
                      simp only [hwk, hv]
                      refine balancesNonNeg_set _ _ _
                        (balancesNonNeg_set _ _ _ h ?_) ?_
                      · intro b' hb'
                        rw [depositTxItem, get_balance_transaction_item] at hb'
                        cases hb'
                      · intro b' hb'
                        rw [Item.get_set, if_pos rfl] at hb'
                        cases hb'
                        have hb0 : 0 ≤ b := h _ it hwk b hv
                        omega
      · rw [atomic_deposit_nonpos s w a n ttl (not_lt.mp ha)]
        simpa using h
  | transfer w t a n ttl =>
      simp only [applyWalletOp]
      by_cases hne : w = t
      · subst hne
        rw [atomic_transfer_self]
        simpa using h
      · by_cases ha : 0 < a
        · rw [atomic_transfer_spec s w t a n ttl ha hne]
          by_cases htx : txRecorded s (get_unique_id w (some n))
          · simpa [htx] using h
          · simp only [htx, if_false, Bool.false_eq_true, if_neg]
            cases hwk : Store.lookup s (wallet_unique_id w) with
            | none => simpa [hwk] using h
            | some it =>
                cases hv : Item.get it BALANCE_KEY with
                | none => simpa [hwk, hv] using h
                | some v =>
                    cases v with
                    | S str => simpa [hwk, hv] using h
                    | M m => simpa [hwk, hv] using h
                    | N b =>
                        by_cases hb : a ≤ b
                        · cases htw : Store.lookup s (wallet_unique_id t) with
                          | none => simpa [hwk, hv, hb, htw] using h
                          | some it' =>
                              cases hv' : Item.get it' BALANCE_KEY with
                              | none => simpa [hwk, hv, hb, htw, hv'] using h
                              | some v' =>
                                  cases v' with
                                  | S str =>
                                      simpa [hwk, hv, hb, htw, hv'] using h
                                  | M m =>
                                      simpa [hwk, hv, hb, htw, hv'] using h
                                  | N b' =>
                                      simp only [hwk, hv, hb, htw, hv',
                                        if_pos]
                                      refine balancesNonNeg_set _ _ _
                                        (balancesNonNeg_set _ _ _
                                          (balancesNonNeg_set _ _ _ h ?_) ?_)
                                        ?_
                                      · intro b'' hb''
                                        rw [transferTxItem,
                                          get_balance_transaction_item] at hb''
                                        cases hb''
                                      · intro b'' hb''
                                        rw [Item.get_set, if_pos rfl] at hb''
                                        cases hb''
                                        omega
                                      · intro b'' hb''
                                        rw [Item.get_set, if_pos rfl] at hb''
                                        cases hb''
                                        have hb0 : 0 ≤ b' := h _ it' htw b' hv'
                                        omega
                        · simpa [hwk, hv, hb] using h
        · rw [atomic_transfer_nonpos s w t a n ttl hne (not_lt.mp ha)]
          simpa using h

theorem runOps_preserves_nonneg (ops : List WalletOp) (s : Store)
    (h : balancesNonNeg s) : balancesNonNeg (runOps s ops) := by
  induction ops generalizing s with
  | nil => exact h
  | cons op rest ih =>
      exact ih (applyWalletOp s op) (applyWalletOp_preserves_nonneg s op h)

/-- C2: starting from the empty table, no sequence of create, deposit
and transfer attempts — concurrent attempts included, since the backend
serializes the atomic batches — ever leaves any wallet with a negative
balance. -/
theorem c2_nonnegative_balance (ops : List WalletOp) (w : String) (b : Int)
    (hb : balanceOf (runOps Store.empty ops) w = some b) : 0 ≤ b := by
  have hinv : balancesNonNeg (runOps Store.empty ops) :=
    runOps_preserves_nonneg ops Store.empty balancesNonNeg_empty
  rw [balanceOf_eq_numAttr] at hb
  unfold numAttr at hb
  cases hlk : Store.lookup (runOps Store.empty ops)
      (wallet_unique_id w) with
  | none => rw [hlk] at hb; cases hb
  | some it =>
      rw [hlk] at hb
      cases hv : Item.get it BALANCE_KEY with
      | none => simp [hv] at hb
      | some v =>
          cases v with
          | N b' =>
              simp [hv] at hb
              subst hb
              exact hinv _ it hlk _ hv
          | S str => simp [hv] at hb
          | M m => simp [hv] at hb

/-- C2 witness. -/
theorem c2_nonnegative_balance_witness :
    balanceOf (runOps Store.empty
        [WalletOp.create "u1" "w1" 0,
         WalletOp.deposit "w1" 7 "abcdef01" 1,
         WalletOp.transfer "w1" "w2" 3 "abcdef02" 2]) "w1" = some 7 ∧
    (0 : Int) ≤ 7 :=
  ⟨by decide, c2_nonnegative_balance
    [WalletOp.create "u1" "w1" 0,
     WalletOp.deposit "w1" 7 "abcdef01" 1,
     WalletOp.transfer "w1" "w2" 3 "abcdef02" 2] "w1" 7 (by decide)⟩

/-- C1: a successful atomic transfer of amount `a` from `S` to `T`
debits `S` by exactly `a`, credits `T` by exactly `a`, and leaves the
balance of every other wallet unchanged. -/
theorem c1_transfer_conservation (s s' : Store) (S T : String) (a : Int)
    (n : String) (ttl : Int)
    (h : atomic_transfer s S T a n ttl = Except.ok s') :
    (∃ bs, balanceOf s S = some bs ∧ balanceOf s' S = some (bs - a)) ∧
    (∃ bt, balanceOf s T = some bt ∧ balanceOf s' T = some (bt + a)) ∧
    (∀ w, w ≠ S → w ≠ T → balanceOf s' w = balanceOf s w) := by
  by_cases hne : S = T
  · subst hne
    rw [atomic_transfer_self] at h
    cases h
  rcases le_or_lt a 0 with ha | ha
  · rw [atomic_transfer_nonpos s S T a n ttl hne ha] at h
    cases h
  rw [atomic_transfer_spec s S T a n ttl ha hne] at h
  by_cases htx : txRecorded s (get_unique_id S (some n))
  · simp [htx] at h
  simp only [htx, if_false, Bool.false_eq_true, if_neg] at h
  cases hwk : Store.lookup s (wallet_unique_id S) with
  | none => rw [hwk] at h; cases h
  | some it =>
    rw [hwk] at h
    cases hv : Item.get it BALANCE_KEY with
    | none => simp [hv] at h
    | some v =>
      cases v with
      | S str => simp [hv] at h
      | M m => simp [hv] at h
      | N b =>
        by_cases hb : a ≤ b
        · simp only [hv, hb, if_pos] at h
          cases htw : Store.lookup s (wallet_unique_id T) with
          | none => rw [htw] at h; cases h
          | some it' =>
            rw [htw] at h
            cases hv' : Item.get it' BALANCE_KEY with
            | none => simp [hv'] at h
            | some v' =>
              cases v' with
              | S str => simp [hv'] at h
              | M m => simp [hv'] at h
              | N b' =>
                simp only [hv', Except.ok.injEq] at h
                have hST : wallet_unique_id S ≠ wallet_unique_id T :=
                  fun hh => hne (wallet_unique_id_inj hh)
                have hTS : wallet_unique_id T ≠ wallet_unique_id S :=
                  fun hh => hne (wallet_unique_id_inj hh).symm
                have hSk : wallet_unique_id S ≠ get_unique_id S (some n) :=
                  wallet_unique_id_ne_get_unique_id S S (some n)
                have hTk : wallet_unique_id T ≠ get_unique_id S (some n) :=
                  wallet_unique_id_ne_get_unique_id T S (some n)
                subst h
                refine ⟨⟨b, ?_, ?_⟩, ⟨b', ?_, ?_⟩, ?_⟩
                · simp [balanceOf, hwk, hv]
                · simp [balanceOf, Store.lookup_set, hST, hTS, hSk,
                    Item.get_set]
                · simp [balanceOf, htw, hv']
                · simp [balanceOf, Store.lookup_set, Item.get_set]
                · intro w hwS hwT
                  have h₁ : wallet_unique_id w ≠ wallet_unique_id T :=
                    fun hh => hwT (wallet_unique_id_inj hh)
                  have h₂ : wallet_unique_id w ≠ wallet_unique_id S :=
                    fun hh => hwS (wallet_unique_id_inj hh)
                  have h₃ : wallet_unique_id w ≠ get_unique_id S (some n) :=
                    wallet_unique_id_ne_get_unique_id w S (some n)
                  simp [balanceOf, Store.lookup_set, h₁, h₂, h₃]
        · simp [hv, hb] at h

/-- C1 witness: a concrete transfer of 100 from `w1` (balance 1000) to
`w2` (balance 0). -/
theorem c1_transfer_conservation_witness :
    atomic_transfer
        (runOps Store.empty
          [WalletOp.create "u1" "w1" 0,
           WalletOp.create "u2" "w2" 0,
           WalletOp.deposit "w1" 1000 "abcdef01" 1])
        "w1" "w2" 100 "deadbeef" 2
      = Except.ok (runOps Store.empty
          [WalletOp.create "u1" "w1" 0,
           WalletOp.create "u2" "w2" 0,
           WalletOp.deposit "w1" 1000 "abcdef01" 1,
           WalletOp.transfer "w1" "w2" 100 "deadbeef" 2]) ∧
    (∃ bs, balanceOf (runOps Store.empty
          [WalletOp.create "u1" "w1" 0,
           WalletOp.create "u2" "w2" 0,
           WalletOp.deposit "w1" 1000 "abcdef01" 1]) "w1" = some bs ∧
        balanceOf (runOps Store.empty
          [WalletOp.create "u1" "w1" 0,
           WalletOp.create "u2" "w2" 0,
           WalletOp.deposit "w1" 1000 "abcdef01" 1,
           WalletOp.transfer "w1" "w2" 100 "deadbeef" 2]) "w1"
          = some (bs - 100)) :=
  ⟨rfl,
    (c1_transfer_conservation
      (runOps Store.empty
        [WalletOp.create "u1" "w1" 0,
         WalletOp.create "u2" "w2" 0,
         WalletOp.deposit "w1" 1000 "abcdef01" 1])
      (runOps Store.empty
        [WalletOp.create "u1" "w1" 0,
         WalletOp.create "u2" "w2" 0,
         WalletOp.deposit "w1" 1000 "abcdef01" 1,
         WalletOp.transfer "w1" "w2" 100 "deadbeef" 2])
      "w1" "w2" 100 "deadbeef" 2 rfl).1⟩

/-! ## Persistence of transaction records (nonce idempotency) -/

theorem txRecorded_set (s : Store) (k k' : String) (it : Item) :
    txRecorded (s.set k' it) k =
      if k = k' then (Item.get it PK_ATTRIBUTE_NAME).isSome
      else txRecorded s k := by
  unfold txRecorded
  rw [Store.lookup_set]
  by_cases h : k = k' <;> simp [h]

theorem get_pk_put_item (data : Item) (p : String)
    (hdata : Item.get data PK_ATTRIBUTE_NAME = none) :
    Item.get (data ++ [(PK_ATTRIBUTE_NAME, .S p)]) PK_ATTRIBUTE_NAME
      = some (.S p) := by
  rw [Item.get_append, hdata]
  simp [Item.get]

theorem get_pk_set_balance (it : Item) (v : AttrValue) :
    Item.get (Item.set it BALANCE_KEY v) PK_ATTRIBUTE_NAME
      = Item.get it PK_ATTRIBUTE_NAME := by
  rw [Item.get_set, if_neg (by decide)]

theorem get_pk_depositTxItem (w : String) (a : Int) (n : String) (ttl : Int) :
    Item.get (depositTxItem w a n ttl) PK_ATTRIBUTE_NAME
      = some (.S (get_unique_id w (some n))) :=
  get_pk_put_item _ _ (get_pk_transaction_as_dict _ _ _)

theorem get_pk_transferTxItem (w t : String) (a : Int) (n : String)
    (ttl : Int) :
    Item.get (transferTxItem w t a n ttl) PK_ATTRIBUTE_NAME
      = some (.S (get_unique_id w (some n))) :=
  get_pk_put_item _ _ (get_pk_transaction_as_dict _ _ _)

theorem get_pk_createTxItem (w : String) (ttl : Int) :
    Item.get (createTxItem w ttl) PK_ATTRIBUTE_NAME
      = some (.S (get_unique_id w none)) :=
  get_pk_put_item _ _ (get_pk_transaction_as_dict _ _ _)

theorem get_pk_createWalletItem (w : String) :
    Item.get (createWalletItem w) PK_ATTRIBUTE_NAME
      = some (.S (wallet_unique_id w)) :=
  get_pk_put_item _ _ (by simp [Item.get, BALANCE_KEY, PK_ATTRIBUTE_NAME])

theorem get_pk_createUserItem (u w : String) :
    Item.get (createUserItem u w) PK_ATTRIBUTE_NAME
      = some (.S (u ++ USER_KEY_POSTFIX)) :=
  get_pk_put_item _ _ (by simp [Item.get, USER_WALLET_KEY, PK_ATTRIBUTE_NAME])

/-- No engine operation ever removes a transaction record: a key
carrying the primary-key attribute keeps carrying it. -/
theorem applyWalletOp_txRecorded_mono (s : Store) (op : WalletOp)
    (k : String) (h : txRecorded s k = true) :
    txRecorded (applyWalletOp s op) k = true := by
  cases op with
  | create u w ttl =>
      simp only [applyWalletOp]
      rw [create_wallet_spec]
      by_cases htx : txRecorded s (get_unique_id w none)
      · simpa [htx] using h
      · by_cases hrest : (txRecorded s (wallet_unique_id w)
            || txRecorded s (u ++ USER_KEY_POSTFIX)) = true
        · simpa [htx, hrest] using h
        · simp only [htx, hrest, if_false, Bool.false_eq_true, if_neg]
          simp [txRecorded_set, get_pk_createUserItem,
            get_pk_createWalletItem, get_pk_createTxItem, h]
  | deposit w a n ttl =>
      simp only [applyWalletOp]
      rcases le_or_lt a 0 with ha | ha
      · rw [atomic_deposit_nonpos s w a n ttl ha]
        simpa using h
      rw [atomic_deposit_spec s w a n ttl ha]
      by_cases htx : txRecorded s (get_unique_id w (some n))
      · simpa [htx] using h
      simp only [htx, if_false, Bool.false_eq_true, if_neg]
      cases hwk : Store.lookup s (wallet_unique_id w) with
      | none => simpa [hwk] using h
      | some it =>
          cases hv : Item.get it BALANCE_KEY with
          | none => simpa [hwk, hv] using h
          | some v =>
              cases v with
              | S str => simpa [hwk, hv] using h
              | M m => simpa [hwk, hv] using h
              | N b =>
                  simp only [hwk, hv]
                  by_cases hk : k = wallet_unique_id w
                  · subst hk
                    unfold txRecorded at h
                    rw [hwk] at h
                    have h' : (Item.get it PK_ATTRIBUTE_NAME).isSome = true := h
                    simp [txRecorded_set, get_pk_set_balance, hwk, h']
                  · simp [txRecorded_set, hk, get_pk_depositTxItem, h]
  | transfer w t a n ttl =>
      simp only [applyWalletOp]
      by_cases hne : w = t
      · subst hne
        rw [atomic_transfer_self]
        simpa using h
      rcases le_or_lt a 0 with ha | ha
      · rw [atomic_transfer_nonpos s w t a n ttl hne ha]
        simpa using h
      rw [atomic_transfer_spec s w t a n ttl ha hne]
      by_cases htx : txRecorded s (get_unique_id w (some n))
      · simpa [htx] using h
      simp only [htx, if_false, Bool.false_eq_true, if_neg]
      cases hwk : Store.lookup s (wallet_unique_id w) with
      | none => simpa [hwk] using h
      | some it =>
          cases hv : Item.get it BALANCE_KEY with
          | none => simpa [hwk, hv] using h
          | some v =>
              cases v with
              | S str => simpa [hwk, hv] using h
              | M m => simpa [hwk, hv] using h
              | N b =>
                  by_cases hb : a ≤ b
                  · cases htw : Store.lookup s (wallet_unique_id t) with
                    | none => simpa [hwk, hv, hb, htw] using h
                    | some it' =>
                        cases hv' : Item.get it' BALANCE_KEY with
                        | none => simpa [hwk, hv, hb, htw, hv'] using h
                        | some v' =>
                            cases v' with
                            | S str => simpa [hwk, hv, hb, htw, hv'] using h
                            | M m => simpa [hwk, hv, hb, htw, hv'] using h
                            | N b' =>
                                simp only [hwk, hv, hb, htw, hv', if_pos]
                                by_cases hk₁ : k = wallet_unique_id t
                                · subst hk₁
                                  unfold txRecorded at h
                                  rw [htw] at h
                                  have h' :
                                      (Item.get it' PK_ATTRIBUTE_NAME).isSome
                                        = true := h
                                  simp [txRecorded_set,
                                    get_pk_set_balance, htw, h']
                                · by_cases hk₂ : k = wallet_unique_id w
                                  · subst hk₂
                                    unfold txRecorded at h
                                    rw [hwk] at h
                                    have h' :
                                        (Item.get it PK_ATTRIBUTE_NAME).isSome
                                          = true := h
                                    simp [txRecorded_set, hk₁,
                                      get_pk_set_balance, hwk, h']
                                  · simp [txRecorded_set, hk₁, hk₂,
                                      get_pk_transferTxItem, h]
                  · simpa [hwk, hv, hb] using h

theorem runOps_txRecorded_mono (l : List WalletOp) (s : Store) (k : String)
    (h : txRecorded s k = true) : txRecorded (runOps s l) k = true := by
  induction l generalizing s with
  | nil => exact h
  | cons op rest ih =>
      exact ih (applyWalletOp s op) (applyWalletOp_txRecorded_mono s op k h)

/-- A successful deposit leaves a transaction record at its nonce key. -/
theorem atomic_deposit_ok_txRecorded (s s' : Store) (w : String) (a : Int)
    (n : String) (ttl : Int)
    (h : atomic_deposit s w a n ttl = Except.ok s') :
    txRecorded s' (get_unique_id w (some n)) = true := by
  rcases le_or_lt a 0 with ha | ha
  · rw [atomic_deposit_nonpos s w a n ttl ha] at h
    cases h
  rw [atomic_deposit_spec s w a n ttl ha] at h
  by_cases htx : txRecorded s (get_unique_id w (some n))
  · simp [htx] at h
  simp only [htx, if_false, Bool.false_eq_true, if_neg] at h
  cases hwk : Store.lookup s (wallet_unique_id w) with
  | none => rw [hwk] at h; cases h
  | some it =>
      rw [hwk] at h
      cases hv : Item.get it BALANCE_KEY with
      | none => simp [hv] at h
      | some v =>
          cases v with
          | S str => simp [hv] at h
          | M m => simp [hv] at h
          | N b =>
              simp only [hv, Except.ok.injEq] at h
              subst h
              have hne : get_unique_id w (some n) ≠ wallet_unique_id w :=
                fun hh =>
                  wallet_unique_id_ne_get_unique_id w w (some n) hh.symm
              simp [txRecorded_set, hne, get_pk_depositTxItem]

/-- A successful transfer leaves a transaction record at its nonce
key (keyed by the source wallet). -/
theorem atomic_transfer_ok_txRecorded (s s' : Store) (w t : String)
    (a : Int) (n : String) (ttl : Int)
    (h : atomic_transfer s w t a n ttl = Except.ok s') :
    txRecorded s' (get_unique_id w (some n)) = true := by
  by_cases hne : w = t
  · subst hne
    rw [atomic_transfer_self] at h
    cases h
  rcases le_or_lt a 0 with ha | ha
  · rw [atomic_transfer_nonpos s w t a n ttl hne ha] at h
    cases h
  rw [atomic_transfer_spec s w t a n ttl ha hne] at h
  by_cases htx : txRecorded s (get_unique_id w (some n))
  · simp [htx] at h
  simp only [htx, if_false, Bool.false_eq_true, if_neg] at h
  cases hwk : Store.lookup s (wallet_unique_id w) with
  | none => rw [hwk] at h; cases h
  | some it =>
      rw [hwk] at h
      cases hv : Item.get it BALANCE_KEY with
      | none => simp [hv] at h
      | some v =>
          cases v with
          | S str => simp [hv] at h
          | M m => simp [hv] at h
          | N b =>
              by_cases hb : a ≤ b
              · simp only [hv, hb, if_pos] at h
                cases htw : Store.lookup s (wallet_unique_id t) with
                | none => rw [htw] at h; cases h
                | some it' =>
                    rw [htw] at h
                    cases hv' : Item.get it' BALANCE_KEY with
                    | none => simp [hv'] at h
                    | some v' =>
                        cases v' with
                        | S str => simp [hv'] at h
                        | M m => simp [hv'] at h
                        | N b' =>
                            simp only [hv', Except.ok.injEq] at h
                            subst h
                            have hne₁ : get_unique_id w (some n)
                                ≠ wallet_unique_id t :=
                              fun hh => wallet_unique_id_ne_get_unique_id
                                t w (some n) hh.symm
                            have hne₂ : get_unique_id w (some n)
                                ≠ wallet_unique_id w :=
                              fun hh => wallet_unique_id_ne_get_unique_id
                                w w (some n) hh.symm
                            simp [txRecorded_set, hne₁, hne₂,
                              get_pk_transferTxItem]
              · simp [hv, hb] at h

theorem atomic_deposit_replay (s : Store) (w : String) (a : Int)
    (n : String) (ttl : Int) (ha : 0 < a)
    (htx : txRecorded s (get_unique_id w (some n)) = true) :
    atomic_deposit s w a n ttl =
      .error (.transactionAlreadyRegistered
        ("Transaction with nonce " ++ n ++ " already registered.")) := by
  rw [atomic_deposit_spec s w a n ttl ha, if_pos htx]

theorem atomic_transfer_replay (s : Store) (w t : String) (a : Int)
    (n : String) (ttl : Int) (ha : 0 < a) (hne : w ≠ t)
    (htx : txRecorded s (get_unique_id w (some n)) = true) :
    atomic_transfer s w t a n ttl =
      .error (.transactionAlreadyRegistered
        ("Transaction with nonce " ++ n ++ " already registered.")) := by
  rw [atomic_transfer_spec s w t a n ttl ha hne, if_pos htx]

/-- C3: once a deposit or transfer with `(wallet_id, nonce)` has taken
effect, every further deposit or transfer attempt with the same pair —
after any interleaved sequence of engine operations — fails with
already-registered and leaves the store unchanged (further attempts are
those satisfying the operations' own local preconditions: positive
amount, and a distinct target for a transfer). -/
theorem c3_nonce_idempotency (s s' : Store) (w n : String) (a : Int)
    (ttl : Int)
    (hsucc : atomic_deposit s w a n ttl = Except.ok s'
      ∨ ∃ t, atomic_transfer s w t a n ttl = Except.ok s')
    (l : List WalletOp) (a' : Int) (ha' : 0 < a') (ttl' : Int) :
    (atomic_deposit (runOps s' l) w a' n ttl' =
      .error (.transactionAlreadyRegistered
        ("Transaction with nonce " ++ n ++ " already registered."))) ∧
    (∀ t', w ≠ t' → atomic_transfer (runOps s' l) w t' a' n ttl' =
      .error (.transactionAlreadyRegistered
        ("Transaction with nonce " ++ n ++ " already registered."))) ∧
    applyWalletOp (runOps s' l) (WalletOp.deposit w a' n ttl')
      = runOps s' l ∧
    (∀ t', applyWalletOp (runOps s' l) (WalletOp.transfer w t' a' n ttl')
      = runOps s' l) := by
  have htx : txRecorded s' (get_unique_id w (some n)) = true := by
    rcases hsucc with h | ⟨t, h⟩
    · exact atomic_deposit_ok_txRecorded s s' w a n ttl h
    · exact atomic_transfer_ok_txRecorded s s' w t a n ttl h
  have htx' : txRecorded (runOps s' l) (get_unique_id w (some n)) = true :=
    runOps_txRecorded_mono l s' _ htx
  have hdep := atomic_deposit_replay (runOps s' l) w a' n ttl' ha' htx'
  refine ⟨hdep, ?_, ?_, ?_⟩
  · intro t' hne
    exact atomic_transfer_replay (runOps s' l) w t' a' n ttl' ha' hne htx'
  · simp [applyWalletOp, hdep]
  · intro t'
    by_cases hne : w = t'
    · subst hne
      simp [applyWalletOp, atomic_transfer_self]
    · simp [applyWalletOp,
        atomic_transfer_replay (runOps s' l) w t' a' n ttl' ha' hne htx']

/-- C3 witness: a concrete deposit with nonce `abcdef01`, followed by a
replayed deposit attempt with the same nonce. -/
theorem c3_nonce_idempotency_witness :
    atomic_deposit (runOps Store.empty [WalletOp.create "u1" "w1" 0])
        "w1" 5 "abcdef01" 1
      = Except.ok (runOps Store.empty
          [WalletOp.create "u1" "w1" 0,
           WalletOp.deposit "w1" 5 "abcdef01" 1]) ∧
    (0 : Int) < 3 ∧
    atomic_deposit (runOps (runOps Store.empty
          [WalletOp.create "u1" "w1" 0,
           WalletOp.deposit "w1" 5 "abcdef01" 1]) []) "w1" 3 "abcdef01" 2
      = .error (.transactionAlreadyRegistered
          "Transaction with nonce abcdef01 already registered.") :=
  ⟨rfl, by decide,
    (c3_nonce_idempotency
      (runOps Store.empty [WalletOp.create "u1" "w1" 0])
      (runOps Store.empty
        [WalletOp.create "u1" "w1" 0,
         WalletOp.deposit "w1" 5 "abcdef01" 1])
      "w1" "abcdef01" 5 1 (Or.inl rfl) [] 3 (by decide) 2).1⟩

/-- C4 witness: slot 0 null and slot 1 a failed condition interpret as
insufficient funds. -/
theorem c4_transfer_failure_interpretation_witness :
    ({ code := "None", message := "" } : CancellationReason).code = "None" ∧
    ({ code := "ConditionalCheckFailed",
       message := "The conditional request failed" } :
        CancellationReason).code ≠ "None" ∧
    ∃ m, transfer_error_interpretation "deadbeef"
        (transactionMultipleErrors
          [{ code := "None", message := "" },
           { code := "ConditionalCheckFailed",
             message := "The conditional request failed" },
           { code := "None", message := "" }]) =
      .insufficientFunds m :=
  ⟨rfl, by decide,
    (c4_transfer_failure_interpretation
      { code := "None", message := "" }
      { code := "ConditionalCheckFailed",
        message := "The conditional request failed" }
      { code := "None", message := "" } "deadbeef").2.1 rfl (by decide)⟩

/-- C10 witness: a `TransactionConflict` reason at slot 0 maps to a
`ConditionalCheckFailed` sub-error. -/
theorem c10_cancellation_mapping_witness :
    (0 : Nat) < 1 ∧
    (transactionMultipleErrors
        [{ code := "TransactionConflict", message := "m1" }]).get? 0
      = some (some (.conditionalCheckFailed "m1")) :=
  ⟨by decide,
    ((c10_cancellation_mapping
        [{ code := "TransactionConflict", message := "m1" }]).2.1 0
      (by decide) { code := "TransactionConflict", message := "m1" }
      rfl).2.1 (Or.inr rfl)⟩

/-- C7 counterexample: the request amount `"0"` passes the schema
(`min_length=1`, `max_length=20`, `regex=r"\d+"` all hold for `"0"`),
so the deposit request is not rejected with 422; it reaches the item
factory, whose `ValueError` surfaces as a 500 — still before any
backend call, the store being left unchanged. -/
theorem c7_counterexample :
    valid_amount_field "0" = true ∧
    wallet_deposit_endpoint
        (runOps Store.empty [WalletOp.create "u1" "w1" 0])
        "w1" "0" "abcdefgh" 1
      = (500, runOps Store.empty [WalletOp.create "u1" "w1" 0]) ∧
    (500 : Nat) ≠ 422 :=
  ⟨rfl, rfl, by decide⟩

/-- C7 (amended): an amount failing the schema — any negative number
(leading `-`) or string not beginning with a digit — is rejected with
422 before any backend call, for deposit and transfer alike; the string
`"0"`, however, passes the schema and is rejected by the item factory
(no backend call, store unchanged) with a 500, not a 422. -/
theorem c7_amount_validation (s : Store) (w t amount nonce : String)
    (ttl : Int) :
    (valid_amount_field amount = false →
      wallet_deposit_endpoint s w amount nonce ttl = (422, s) ∧
      wallet_transfer_endpoint s w t amount nonce ttl = (422, s)) ∧
    (amount.data.head? = some '-' ∨ regex_digits_match amount = false →
      valid_amount_field amount = false) ∧
    (valid_nonce_field nonce = true →
      wallet_deposit_endpoint s w "0" nonce ttl = (500, s)) := by
  refine ⟨?_, ?_, ?_⟩
  · intro h
    constructor
    · simp [wallet_deposit_endpoint, h]
    · simp [wallet_transfer_endpoint, h]
  · rintro (h | h)
    · have : regex_digits_match amount = false := by
        unfold regex_digits_match
        cases hd : amount.data with
        | nil => rfl
        | cons c l =>
            rw [hd] at h
            simp only [List.head?] at h
            cases h
            rfl
      simp [valid_amount_field, this]
    · simp [valid_amount_field, h]
  · intro h
    have h0 : valid_amount_field "0" = true := rfl
    have hp : pyInt "0" = some 0 := rfl
    simp [wallet_deposit_endpoint, h0, h, hp,
      atomic_deposit_nonpos s w 0 nonce ttl (le_refl 0), walletErrorStatus]

/-- C7 witness: the amount `"-5"` is rejected with 422. -/
theorem c7_amount_validation_witness :
    valid_amount_field "-5" = false ∧
    wallet_deposit_endpoint
        (runOps Store.empty [WalletOp.create "u1" "w1" 0])
        "w1" "-5" "abcdefgh" 1
      = (422, runOps Store.empty [WalletOp.create "u1" "w1" 0]) :=
  ⟨rfl,
    ((c7_amount_validation
      (runOps Store.empty [WalletOp.create "u1" "w1" 0])
      "w1" "w2" "-5" "abcdefgh" 1).1 rfl).1⟩

/-- C8 counterexample: `Wallet.atomic_deposit` does not validate the
nonce length: called directly with the 2-character nonce `"ab"` it
submits and commits the transaction instead of failing. -/
theorem c8_counterexample :
    valid_nonce_field "ab" = false ∧
    atomic_deposit (runOps Store.empty [WalletOp.create "u1" "w1" 0])
        "w1" 5 "ab" 1
      = Except.ok (runOps Store.empty
          [WalletOp.create "u1" "w1" 0,
           WalletOp.deposit "w1" 5 "ab" 1]) :=
  ⟨rfl, rfl⟩

/-- C8 (amended): `atomic_deposit` enforces `amount > 0` locally — the
item factory raises invalid-argument while the batch is being built,
before any backend call, leaving the store unchanged; the
nonce-length-8–16 precondition is enforced only by the HTTP request
schema (422 before any backend call), not by the engine. -/
theorem c8_deposit_preconditions (s : Store) (w n amt : String) (a : Int)
    (ttl : Int) :
    (a ≤ 0 →
      atomic_deposit s w a n ttl =
        .error (.valueError ("Unable to decrement. Amount for the "
          ++ wallet_unique_id w ++ " can not be lower than 0")) ∧
      applyWalletOp s (WalletOp.deposit w a n ttl) = s) ∧
    (valid_nonce_field n = false →
      wallet_deposit_endpoint s w amt n ttl = (422, s)) := by
  constructor
  · intro ha
    have h := atomic_deposit_nonpos s w a n ttl ha
    exact ⟨h, by simp [applyWalletOp, h]⟩
  · intro hn
    simp [wallet_deposit_endpoint, hn]

/-- C8 witness: a zero amount fails locally; a 7-character nonce is
rejected by the schema with 422. -/
theorem c8_deposit_preconditions_witness :
    ((0 : Int) ≤ 0 ∧
      atomic_deposit (runOps Store.empty [WalletOp.create "u1" "w1" 0])
          "w1" 0 "abcdefgh" 1
        = .error (.valueError
            "Unable to decrement. Amount for the w1#wallet can not be lower than 0")) ∧
    (valid_nonce_field "abcdefg" = false ∧
      wallet_deposit_endpoint
          (runOps Store.empty [WalletOp.create "u1" "w1" 0])
          "w1" "10" "abcdefg" 1
        = (422, runOps Store.empty [WalletOp.create "u1" "w1" 0])) :=
  ⟨⟨by decide,
      by
        have h := ((c8_deposit_preconditions
          (runOps Store.empty [WalletOp.create "u1" "w1" 0])
          "w1" "abcdefgh" "10" 0 1).1 (by decide)).1
        simpa [wallet_unique_id, WALLET_KEY_POSTFIX] using h⟩,
    ⟨rfl,
      (c8_deposit_preconditions
        (runOps Store.empty [WalletOp.create "u1" "w1" 0])
        "w1" "abcdefg" "10" 0 1).2 rfl⟩⟩

end WalletSpec
